import Mathlib

/-!
# cluster-logging-operator: TLS block builder, path resolution, workload factory, reconcile loop

A shallow embedding of

* `internal/generator/vector/output/common/tls/tls.go` (`New`, `ConfigMapOrSecretPath`,
  `SecretPath`, `setTLSProfileFromOptions`, `TLSConf.Template`),
* `controllers/forwarding/forwarding_controller.go` (`Reconcile`, `fetchOrStubClusterLogging`,
  `updateStatus`),
* the workload factory exercised by `internal/collector/collector_test.go`.

Go pointers are `Option`, Go maps are association lists read with `List.lookup`, a failed
type assertion `x.(string)` (a runtime panic) is the `none` result of an `Option`-valued
function, and the packages that these files import but that are not among the embedded
files are taken as parameters.
-/

namespace CLO

/-! ## Values and options of the generator framework -/

/-- A Go `interface{}` value as far as the option maps use it. -/
inductive GoAny where
  | str (s : String)
  | bool (b : Bool)
  | int (n : Int)
  deriving DecidableEq, Repr

/-- The type assertion `v.(string)`; `none` is the runtime panic. -/
def GoAny.assertString : GoAny → Option String
  | .str s => some s
  | _ => none

/-- The struct `framework.Option{Name, Value}`. -/
structure FrameworkOption where
  Name : String
  Value : GoAny
  deriving DecidableEq, Repr

/-- The map `framework.Options` (`map[string]interface{}`). -/
abbrev Options := List (String × GoAny)

/-- The struct `typehelpers.OptionalPair`; its zero value has no value. -/
structure OptionalPair where
  Key : String
  Value : Option GoAny
  deriving DecidableEq, Repr

/-- The zero value `OptionalPair{}` of an unset `Enabled` field. -/
def OptionalPair.zero : OptionalPair := ⟨"", none⟩

/-- The constructor `typehelpers.NewOptionalPair(key, value)`. -/
def NewOptionalPair (key : String) (value : GoAny) : OptionalPair := ⟨key, some value⟩

/-! ## API types read by the TLS builder -/

/-- The struct `LocalObjectReference`: the name of a secret or of a config map. -/
structure LocalObjectReference where
  Name : String
  deriving DecidableEq, Repr

/-- The struct `obs.ConfigMapOrSecretKey`. -/
structure ConfigMapOrSecretKey where
  Key : String
  ConfigMap : Option LocalObjectReference
  Secret : Option LocalObjectReference
  deriving DecidableEq, Repr

/-- The struct `obs.SecretKey`. -/
structure SecretKey where
  Key : String
  Secret : Option LocalObjectReference
  deriving DecidableEq, Repr

/-- The struct `obs.OutputTLSSpec` (the fields `New` reads). -/
structure OutputTLSSpec where
  CA : Option ConfigMapOrSecretKey
  Certificate : Option ConfigMapOrSecretKey
  Key : Option SecretKey
  KeyPassphrase : Option SecretKey
  InsecureSkipVerify : Bool
  deriving DecidableEq, Repr

/-- The map `helpers.Secrets`: secret name to its key/payload map. -/
abbrev Secrets := List (String × List (String × String))

/-- The imports of `tls.go` that are not among the embedded files:
`framework.HasOption`, the option names `framework.URL`, `framework.MinTLSVersion`,
`framework.Ciphers`, `url.IsSecure`, `helpers.SecretPath`, `helpers.ConfigPath` and
`Secrets.AsString`. -/
structure Imports where
  HasOption : String → List FrameworkOption → Option GoAny
  URL : String
  MinTLSVersion : String
  Ciphers : String
  IsSecure : String → Bool
  SecretPath : String → String → String
  ConfigPath : String → String → String
  AsString : Secrets → Option SecretKey → String

/-! ## tls.go -/

/-- The constant `Component`. -/
def Component : String := "component"

/-- The constant `IncludeEnabled`. -/
def IncludeEnabled : String := "IncludeEnabled"

/-- The variable `IncludeEnabledOption`. -/
def IncludeEnabledOption : FrameworkOption := ⟨IncludeEnabled, .str ""⟩

/-- The struct `TLSConf`. -/
structure TLSConf where
  Component : String
  ID : String
  Enabled : OptionalPair
  NeedsEnabled : Bool
  InsecureSkipVerify : Bool
  TlsMinVersion : String
  CipherSuites : String
  CAFilePath : String
  CertPath : String
  KeyPath : String
  PassPhrase : String
  deriving DecidableEq, Repr

/-- The interface `framework.Element` as `New` produces it: `framework.Nil` or a `TLSConf`. -/
inductive Element where
  | Nil
  | TLSConf (conf : TLSConf)
  deriving DecidableEq, Repr

/-- `ConfigMapOrSecretPath` (tls.go 66-76). -/
def ConfigMapOrSecretPath (I : Imports) (resource : Option ConfigMapOrSecretKey) : String :=
  match resource with
  | none => ""
  | some r =>
    match r.Secret with
    | some s => I.SecretPath s.Name r.Key
    | none =>
      match r.ConfigMap with
      | some c => I.ConfigPath c.Name r.Key
      | none => ""

/-- `SecretPath` (tls.go 78-83). -/
def SecretPath (I : Imports) (resource : Option SecretKey) : String :=
  match resource with
  | none => ""
  | some r =>
    match r.Secret with
    | none => ""
    | some s => I.SecretPath s.Name r.Key

/-- `setTLSProfileFromOptions` (tls.go 85-92); `none` when a type assertion panics. -/
def setTLSProfileFromOptions (I : Imports) (t : TLSConf) (op : Options) : Option TLSConf :=
  let t1 : Option TLSConf :=
    match op.lookup I.MinTLSVersion with
    | some version => (version.assertString).map (fun v => { t with TlsMinVersion := v })
    | none => some t
  t1.bind (fun t =>
    match op.lookup I.Ciphers with
    | some ciphers => (ciphers.assertString).map (fun c => { t with CipherSuites := c })
    | none => some t)

/-- Lines 36-40 of `New`: whether the URL option sends `New` to `return framework.Nil`;
`none` when `outURL.(string)` panics. -/
def plaintextURL (I : Imports) (options : List FrameworkOption) : Option Bool :=
  match I.HasOption I.URL options with
  | some outURL => (outURL.assertString).map (fun u => !I.IsSecure u)
  | none => some false

/-- Lines 41-47 of `New`: the initial `TLSConf` with the component override. -/
def initialConf (I : Imports) (id : String) (options : List FrameworkOption) : Option TLSConf :=
  let conf : TLSConf :=
    { Component := "sinks", ID := id, Enabled := OptionalPair.zero, NeedsEnabled := false,
      InsecureSkipVerify := false, TlsMinVersion := "", CipherSuites := "", CAFilePath := "",
      CertPath := "", KeyPath := "", PassPhrase := "" }
  match I.HasOption Component options with
  | some comp => (comp.assertString).map (fun c => { conf with Component := c })
  | none => some conf

/-- Lines 48-58 of `New`: the `enabled` pair and the materials of a non-nil spec. -/
def applySpec (I : Imports) (conf : TLSConf) (spec : Option OutputTLSSpec) (secrets : Secrets)
    (options : List FrameworkOption) : TLSConf :=
  let conf : TLSConf :=
    if (I.HasOption IncludeEnabled options).isSome && spec.isSome then
      { conf with Enabled := NewOptionalPair "enabled" (.bool true) }
    else conf
  match spec with
  | some spec =>
    { conf with
      CAFilePath := ConfigMapOrSecretPath I spec.CA
      CertPath := ConfigMapOrSecretPath I spec.Certificate
      KeyPath := SecretPath I spec.Key
      PassPhrase := I.AsString secrets spec.KeyPassphrase
      InsecureSkipVerify := spec.InsecureSkipVerify }
  | none => conf

/-- Lines 60-62 of `New`: the `NeedsEnabled` flag. -/
def markNeedsEnabled (conf : TLSConf) (spec : Option OutputTLSSpec) : TLSConf :=
  if conf.CipherSuites != "" || conf.TlsMinVersion != "" || spec.isSome then
    { conf with NeedsEnabled := true }
  else conf

/-- `New` (tls.go 35-64); `none` when one of its type assertions panics. -/
def New (I : Imports) (id : String) (spec : Option OutputTLSSpec) (secrets : Secrets)
    (op : Options) (options : List FrameworkOption) : Option Element :=
  (plaintextURL I options).bind (fun plaintext =>
    if plaintext then some Element.Nil
    else
      (initialConf I id options).bind (fun conf =>
        (setTLSProfileFromOptions I (applySpec I conf spec secrets options) op).map
          (fun conf => Element.TLSConf (markNeedsEnabled conf spec))))

/-- `TLSConf.Name`. -/
def TLSConf.Name (_t : TLSConf) : String := "vectorTLS"

/-! ### The template of the TLS block

`Template` returns Go `text/template` source. It is embedded as the parse of that source: the
trim markers `{{-` and `-}}` are applied to the neighbouring text as the template lexer does,
and `execute` follows the evaluation rules of `text/template` for the actions that occur. -/

/-- The string fields of `TLSConf` that the template reads. -/
inductive StrField where
  | Component | ID | TlsMinVersion | CipherSuites | KeyPath | CertPath | CAFilePath | PassPhrase
  deriving DecidableEq, Repr

/-- The field access `.F` on the template data. -/
def StrField.get (t : TLSConf) : StrField → String
  | .Component => t.Component
  | .ID => t.ID
  | .TlsMinVersion => t.TlsMinVersion
  | .CipherSuites => t.CipherSuites
  | .KeyPath => t.KeyPath
  | .CertPath => t.CertPath
  | .CAFilePath => t.CAFilePath
  | .PassPhrase => t.PassPhrase

/-- The conditions of the `if` actions of the template. -/
inductive Cond where
  /-- The action `if ne .F "lit"`. -/
  | ne (f : StrField) (lit : String)
  /-- The action `if .F` on a string field: true when the string is not empty. -/
  | truthy (f : StrField)
  /-- The action `if .InsecureSkipVerify`. -/
  | insecureSkipVerify
  /-- The action `if and .F .G` on string fields: true when both are not empty. -/
  | and (f g : StrField)
  deriving DecidableEq, Repr

/-- Text and print actions. -/
inductive Item where
  | text (s : String)
  /-- The action `{{ .F }}` on a string field. -/
  | field (f : StrField)
  /-- The action `{{ .Enabled }}`. -/
  | enabled
  deriving DecidableEq, Repr

/-- A node of the body of a `define`: an item, or an `if ... end` around items. -/
inductive Node where
  | item (i : Item)
  | cond (c : Cond) (body : List Item)
  deriving DecidableEq, Repr

/-- The text that `fmt` prints for a value. -/
def GoAny.text : GoAny → String
  | .str s => s
  | .bool true => "true"
  | .bool false => "false"
  | .int n => toString n

/-- Modelled from the spec: the method `OptionalPair.String` of the package `typehelpers`,
which is not among the embedded files. The spec describes the enabled flag as tri-state
(absent / explicit true) and states that absent values never produce a directive line: the
zero value prints as the empty text, a set pair prints as `key = value`. -/
def OptionalPair.String (p : OptionalPair) : String :=
  match p.Value with
  | none => ""
  | some v => p.Key ++ " = " ++ v.text

/-- Evaluation of a condition on the template data. -/
def Cond.eval (t : TLSConf) : Cond → Bool
  | .ne f lit => f.get t != lit
  | .truthy f => f.get t != ""
  | .insecureSkipVerify => t.InsecureSkipVerify
  | .and f g => f.get t != "" && g.get t != ""

/-- Execution of an item. -/
def Item.execute (t : TLSConf) : Item → String
  | .text s => s
  | .field f => f.get t
  | .enabled => t.Enabled.String

/-- Execution of a list of items. -/
def executeItems (t : TLSConf) : List Item → String
  | [] => ""
  | i :: rest => i.execute t ++ executeItems t rest

/-- Execution of a node. -/
def Node.execute (t : TLSConf) : Node → String
  | .item i => i.execute t
  | .cond c body => if c.eval t then executeItems t body else ""

/-- Execution of the body of a `define` on the template data. -/
def execute (t : TLSConf) : List Node → String
  | [] => ""
  | n :: rest => n.execute t ++ execute t rest

/-- `TLSConf.Template` (tls.go 98-127): the body of the template `vectorTLS`. -/
def TLSConf.Template (t : TLSConf) : List Node :=
  if !t.NeedsEnabled then
    []
  else
    [ .item (.text "["), .item (.field .Component), .item (.text "."), .item (.field .ID),
      .item (.text ".tls]\n"),
      .item .enabled,
      .cond (.ne .TlsMinVersion "")
        [.text "\nmin_tls_version = \"", .field .TlsMinVersion, .text "\""],
      .cond (.ne .CipherSuites "")
        [.text "\nciphersuites = \"", .field .CipherSuites, .text "\""],
      .cond .insecureSkipVerify
        [.text "\nverify_certificate = false\nverify_hostname = false"],
      .cond (.and .KeyPath .CertPath)
        [.text "\nkey_file = ", .field .KeyPath, .text "\ncrt_file = ", .field .CertPath],
      .cond (.truthy .CAFilePath)
        [.text "\nca_file = ", .field .CAFilePath],
      .cond (.truthy .PassPhrase)
        [.text "\nkey_pass = \"", .field .PassPhrase, .text "\""],
      .item (.text "\n") ]

/-- The rendered TLS block: the template `vectorTLS` executed on the `TLSConf` itself. -/
def TLSConf.render (t : TLSConf) : String := execute t t.Template

/-! ## Statement helpers -/

/-- The string an option-map entry stands for: empty when the entry is absent, `none` when
the entry is not a string (the type assertion would panic). -/
def stringEntry : Option GoAny → Option String
  | none => some ""
  | some v => v.assertString

/-- Sample imports for concrete evaluations: first-match option lookup, `https` as the only
secure scheme, the collector mount directories of secrets and config maps. -/
def sampleImports : Imports where
  HasOption := fun name options => (options.find? (fun o => o.Name == name)).map (fun o => o.Value)
  URL := "url"
  MinTLSVersion := "minTLSVersion"
  Ciphers := "ciphers"
  IsSecure := fun u => decide ("https:".data <+: u.data)
  SecretPath := fun name key => "/var/run/ocp-collector/secrets/" ++ name ++ "/" ++ key
  ConfigPath := fun name key => "/var/run/ocp-collector/config/" ++ name ++ "/" ++ key
  AsString := fun secrets key =>
    match key with
    | none => ""
    | some k =>
      match k.Secret with
      | none => ""
      | some s => ((secrets.lookup s.Name).bind (fun d => d.lookup k.Key)).getD ""

/-- A TLS spec with a CA in a config map, a certificate and a key in a secret. -/
def sampleTLSSpec : OutputTLSSpec where
  CA := some ⟨"ca-bundle.crt", some ⟨"my-ca"⟩, none⟩
  Certificate := some ⟨"tls.crt", none, some ⟨"my-secret"⟩⟩
  Key := some ⟨"tls.key", some ⟨"my-secret"⟩⟩
  KeyPassphrase := none
  InsecureSkipVerify := true

/-- The `TLSConf` of the output `es` with nothing but the defaults. -/
def sampleBareConf : TLSConf where
  Component := "sinks"
  ID := "es"
  Enabled := OptionalPair.zero
  NeedsEnabled := false
  InsecureSkipVerify := false
  TlsMinVersion := ""
  CipherSuites := ""
  CAFilePath := ""
  CertPath := ""
  KeyPath := ""
  PassPhrase := ""

/-- A URL option with a secure destination. -/
def sampleSecureURL : List FrameworkOption := [⟨"url", .str "https://es:9200"⟩]

/-- A URL option with a plaintext destination. -/
def samplePlainURL : List FrameworkOption := [⟨"url", .str "http://es:9200"⟩]

/-- A global options map with a minimum TLS version and no cipher suites. -/
def samplePolicy : Options := [("minTLSVersion", .str "VersionTLS12")]

/-- A reference that names both a secret and a config map. -/
def sampleBothRef : ConfigMapOrSecretKey := ⟨"ca.crt", some ⟨"my-ca"⟩, some ⟨"my-secret"⟩⟩

/-- A reference that names only a config map. -/
def sampleConfigRef : ConfigMapOrSecretKey := ⟨"ca.crt", some ⟨"my-ca"⟩, none⟩

/-- A reference to the same secret and key as `sampleBothRef` with another config map. -/
def sampleOtherRef : ConfigMapOrSecretKey := ⟨"ca.crt", some ⟨"other-ca"⟩, some ⟨"my-secret"⟩⟩

/-! ## Workload factory

The factory (`internal/collector`) is not among the embedded files; only its test
`collector_test.go` is present. Its steps are modelled from section 4.4 of the design
document, with the names and literals that the test shows. -/

/-- The collector types `logging.LogCollectionTypeFluentd`, `logging.LogCollectionTypeVector`. -/
inductive LogCollectionType where
  | fluentd
  | vector
  deriving DecidableEq, Repr

/-- The struct `v1.Toleration`. -/
structure Toleration where
  Key : String
  Operator : String
  Value : String
  Effect : String
  deriving DecidableEq, Repr

/-- The struct `v1.ResourceRequirements`: resource name to quantity, for limits and requests. -/
structure ResourceRequirements where
  Limits : List (String × String)
  Requests : List (String × String)
  deriving DecidableEq, Repr

/-- The struct `v1.EnvVar`; `FieldPath` is the path of `ValueFrom.FieldRef` when set. -/
structure EnvVar where
  Name : String
  Value : String
  FieldPath : Option String
  deriving DecidableEq, Repr

/-- The struct `logging.CollectorSpec`. -/
structure CollectorSpec where
  Resources : Option ResourceRequirements
  NodeSelector : List (String × String)
  Tolerations : List Toleration
  deriving DecidableEq, Repr

/-- The struct `logging.Cloudwatch`. -/
structure Cloudwatch where
  Region : String
  GroupBy : String
  deriving DecidableEq, Repr

/-- The struct `logging.OutputSecretSpec`. -/
structure OutputSecretSpec where
  Name : String
  deriving DecidableEq, Repr

/-- The struct `logging.OutputSpec` (the fields the factory reads; `Type_` is the Go field
`Type`). -/
structure OutputSpec where
  Name : String
  Type_ : String
  Cloudwatch : Option Cloudwatch
  Secret : Option OutputSecretSpec
  deriving DecidableEq, Repr

/-- The struct `logging.PipelineSpec`. -/
structure PipelineSpec where
  Name : String
  InputRefs : List String
  OutputRefs : List String
  deriving DecidableEq, Repr

/-- The struct `logging.ClusterLogForwarderSpec`. -/
structure ClusterLogForwarderSpec where
  Outputs : List OutputSpec
  Pipelines : List PipelineSpec
  deriving DecidableEq, Repr

/-- The struct `v1.Secret`: key to payload. -/
structure Secret where
  Data : List (String × String)
  deriving DecidableEq, Repr

/-- The struct `v1.ConfigMap` of the trust bundle. -/
structure ConfigMap where
  Namespace : String
  Name : String
  Data : List (String × String)
  deriving DecidableEq, Repr

/-- The struct `v1.VolumeMount`. -/
structure VolumeMount where
  Name : String
  MountPath : String
  deriving DecidableEq, Repr

/-- The struct `v1.Volume` with a config map source. -/
structure Volume where
  Name : String
  ConfigMapName : String
  deriving DecidableEq, Repr

/-- The struct `v1.SecurityContext` as the test expects it. -/
structure SecurityContext where
  DropCapabilities : List String
  SELinuxType : String
  ReadOnlyRootFilesystem : Bool
  AllowPrivilegeEscalation : Bool
  SeccompProfileType : String
  deriving DecidableEq, Repr

/-- The struct `v1.Container`. -/
structure Container where
  Image : String
  Env : List EnvVar
  Resources : ResourceRequirements
  VolumeMounts : List VolumeMount
  SecurityContext : SecurityContext
  deriving DecidableEq, Repr

/-- The struct `v1.PodSpec`. -/
structure PodSpec where
  Containers : List Container
  Volumes : List Volume
  Tolerations : List Toleration
  NodeSelector : List (String × String)
  deriving DecidableEq, Repr

/-- The struct `Factory` as the test constructs it (the visitor is fixed by the type). -/
structure Factory where
  CollectorType : LogCollectionType
  ImageName : String
  CollectorSpec : CollectorSpec
  Secrets : List (String × Secret)
  deriving DecidableEq, Repr

/-- The constants and default tables that the factory and its test name and that are outside
the checked sources, together with `path.Join` and the proxy environment of the process. -/
structure FactoryConstants where
  defaultTolerations : List Toleration
  DefaultNodeSelector : List (String × String)
  RequiredDropCapabilities : List String
  DefaultMemory : String
  DefaultCpuRequest : String
  OutputTypeCloudwatch : String
  AWSRegionEnvVarKey : String
  AWSRoleArnEnvVarKey : String
  AWSRoleSessionEnvVarKey : String
  AWSRoleSessionName : String
  AWSWebIdentityTokenEnvVarKey : String
  AWSWebIdentityTokenMount : String
  AWSWebIdentityTokenFilePath : String
  TrustedCABundleMountDir : String
  pathJoin : String → String → String
  proxyEnv : Option (String × String × String)

/-- The credential shapes of section 4.1. -/
inductive CredentialShape where
  | Bundled
  | RoleOnly
  | None
  deriving DecidableEq, Repr

/-- Modelled from the spec: `credentialShape` of section 4.1 (the secret inspection of the
package `security`, not among the embedded files). It inspects the ordered key names
`credentials`, `role_arn` (the two keys of the test) and returns the first match. -/
def credentialShape (secret : Secret) : CredentialShape :=
  if (secret.Data.lookup "credentials").isSome then .Bundled
  else if (secret.Data.lookup "role_arn").isSome then .RoleOnly
  else .None

/-- Modelled from the spec: the role ARN of a secret (section 4.4 step 5, not among the embedded
files): from the bundled credentials or the bare role key, in that precedence order. -/
def roleArn (secret : Secret) : String :=
  match secret.Data.lookup "credentials" with
  | some v => v
  | none => (secret.Data.lookup "role_arn").getD ""

/-- Modelled from the spec: whether the strategy of a collector type injects STS-style
credentials into the environment (section 3; the visitors are not among the embedded files).
The test fixes the two values: vector injects, fluentd does not. -/
def LogCollectionType.injectsSTS : LogCollectionType → Bool
  | .vector => true
  | .fluentd => false

/-- Modelled from the spec: the default resource requirements of a collector type (section 3;
the packages `fluentd` and `vector` are not among the embedded files), with the values the test
expects: memory limit and request `DefaultMemory` and cpu request `DefaultCpuRequest` for
fluentd, the empty object for vector. -/
def defaultResources (K : FactoryConstants) : LogCollectionType → ResourceRequirements
  | .fluentd =>
    { Limits := [("memory", K.DefaultMemory)],
      Requests := [("memory", K.DefaultMemory), ("cpu", K.DefaultCpuRequest)] }
  | .vector => { Limits := [], Requests := [] }

/-- Modelled from the spec: `Factory.CollectorResourceRequirements` (section 4.4 step 2,
not among the embedded files): declared requirements replace the defaults of the type as a
whole, otherwise the defaults of the type apply verbatim. -/
def Factory.CollectorResourceRequirements (K : FactoryConstants) (f : Factory) :
    ResourceRequirements :=
  match f.CollectorSpec.Resources with
  | some declared => declared
  | none => defaultResources K f.CollectorType

/-- Modelled from the spec: the toleration list of section 4.4 step 3 (not among the embedded
files): the fixed default list concatenated with the declared tolerations. -/
def Factory.Tolerations (K : FactoryConstants) (f : Factory) : List Toleration :=
  K.defaultTolerations ++ f.CollectorSpec.Tolerations

/-- Modelled from the spec: the node selector of section 4.4 step 3 (not among the embedded
files): the defaults overlaid with the declared entries, declared entries winning. -/
def Factory.NodeSelector (K : FactoryConstants) (f : Factory) : List (String × String) :=
  f.CollectorSpec.NodeSelector ++
    K.DefaultNodeSelector.filter (fun kv => (f.CollectorSpec.NodeSelector.lookup kv.1).isNone)

/-- Modelled from the spec: the proxy variables of section 4.4 step 4 (not among the embedded
files): `HTTP_PROXY` and `HTTPS_PROXY` verbatim, `NO_PROXY` with the exclusion token
`elasticsearch` of the test put in front. -/
def proxyEnvVars (K : FactoryConstants) : List EnvVar :=
  match K.proxyEnv with
  | some (http, https, noProxy) =>
    [⟨"HTTP_PROXY", http, none⟩, ⟨"HTTPS_PROXY", https, none⟩,
     ⟨"NO_PROXY", "elasticsearch," ++ noProxy, none⟩]
  | none => []

/-- Modelled from the spec: the quadruple of federated-credential variables of section 4.4
step 5 (not among the embedded files). -/
def webIdentityEnvVars (K : FactoryConstants) (cw : Cloudwatch) (secret : Secret) :
    List EnvVar :=
  [⟨K.AWSRegionEnvVarKey, cw.Region, none⟩,
   ⟨K.AWSRoleArnEnvVarKey, roleArn secret, none⟩,
   ⟨K.AWSRoleSessionEnvVarKey, K.AWSRoleSessionName, none⟩,
   ⟨K.AWSWebIdentityTokenEnvVarKey,
     K.pathJoin K.AWSWebIdentityTokenMount K.AWSWebIdentityTokenFilePath, none⟩]

/-- Modelled from the spec: the credential variables of one output (section 4.4 step 5):
injected when the type of the output requires cloud credentials and its secret, keyed by the
output name, has the shape `Bundled` or `RoleOnly`. -/
def outputCredentialEnv (K : FactoryConstants) (secrets : List (String × Secret))
    (o : OutputSpec) : List EnvVar :=
  if o.Type_ == K.OutputTypeCloudwatch then
    match o.Cloudwatch, secrets.lookup o.Name with
    | some cw, some secret =>
      if credentialShape secret != CredentialShape.None then webIdentityEnvVars K cw secret
      else []
    | _, _ => []
  else []

/-- Modelled from the spec: the credential variables of all outputs, in declaration order. -/
def credentialEnvOfOutputs (K : FactoryConstants) (secrets : List (String × Secret)) :
    List OutputSpec → List EnvVar
  | [] => []
  | o :: rest => outputCredentialEnv K secrets o ++ credentialEnvOfOutputs K secrets rest

/-- Modelled from the spec: the credential injection of section 4.4 step 5, applied only when
the strategy of the collector type has STS-style injection enabled. -/
def credentialEnv (K : FactoryConstants) (f : Factory) (spec : ClusterLogForwarderSpec) :
    List EnvVar :=
  if f.CollectorType.injectsSTS then credentialEnvOfOutputs K f.Secrets spec.Outputs else []

/-- Modelled from the spec: the collector container of section 4.4 (not among the embedded
files): base container with the pod IP variable and the fixed security context (step 1),
resource requirements (step 2), proxy variables and trust bundle mount (step 4), credential
variables (step 5). -/
def Factory.NewCollectorContainer (K : FactoryConstants) (f : Factory)
    (trustedCABundle : Option ConfigMap) (spec : ClusterLogForwarderSpec) : Container :=
  { Image := f.ImageName
    Env := [⟨"POD_IP", "", some "status.podIP"⟩] ++ proxyEnvVars K ++ credentialEnv K f spec
    Resources := f.CollectorResourceRequirements K
    VolumeMounts :=
      match trustedCABundle with
      | some cm => [⟨cm.Name, K.TrustedCABundleMountDir⟩]
      | none => []
    SecurityContext :=
      { DropCapabilities := K.RequiredDropCapabilities, SELinuxType := "spc_t",
        ReadOnlyRootFilesystem := true, AllowPrivilegeEscalation := false,
        SeccompProfileType := "RuntimeDefault" } }

/-- Modelled from the spec: `Factory.NewPodSpec` (section 4.4, not among the embedded files).
The cluster id and the schema version do not enter the parts of the pod that are modelled. -/
def Factory.NewPodSpec (K : FactoryConstants) (f : Factory) (trustedCABundle : Option ConfigMap)
    (spec : ClusterLogForwarderSpec) (_clusterID _schemaVersion : String) : PodSpec :=
  { Containers := [f.NewCollectorContainer K trustedCABundle spec]
    Volumes :=
      match trustedCABundle with
      | some cm => [⟨cm.Name, cm.Name⟩]
      | none => []
    Tolerations := f.Tolerations K
    NodeSelector := f.NodeSelector K }

/-- The four names of the federated-credential variables. -/
def webIdentityNames (K : FactoryConstants) : List String :=
  [K.AWSRegionEnvVarKey, K.AWSRoleArnEnvVarKey, K.AWSRoleSessionEnvVarKey,
   K.AWSWebIdentityTokenEnvVarKey]

/-- Sample constants for concrete evaluations. -/
def sampleConstants : FactoryConstants where
  defaultTolerations :=
    [⟨"node-role.kubernetes.io/master", "Exists", "", "NoSchedule"⟩,
     ⟨"node.kubernetes.io/disk-pressure", "Exists", "", "NoSchedule"⟩]
  DefaultNodeSelector := [("kubernetes.io/os", "linux")]
  RequiredDropCapabilities := ["CHOWN", "DAC_OVERRIDE", "FOWNER", "KILL", "SETGID", "SETUID"]
  DefaultMemory := "736Mi"
  DefaultCpuRequest := "100m"
  OutputTypeCloudwatch := "cloudwatch"
  AWSRegionEnvVarKey := "AWS_REGION"
  AWSRoleArnEnvVarKey := "AWS_ROLE_ARN"
  AWSRoleSessionEnvVarKey := "AWS_ROLE_SESSION_NAME"
  AWSRoleSessionName := "output-cloudwatch"
  AWSWebIdentityTokenEnvVarKey := "AWS_WEB_IDENTITY_TOKEN_FILE"
  AWSWebIdentityTokenMount := "/var/run/secrets/openshift/serviceaccount"
  AWSWebIdentityTokenFilePath := "token"
  TrustedCABundleMountDir := "/etc/pki/ca-trust/extracted/pem/"
  pathJoin := fun a b => a ++ "/" ++ b
  proxyEnv := none

/-- The forwarder spec of the cloudwatch test: one pipeline to the output `cw`. -/
def sampleForwarderSpec : ClusterLogForwarderSpec where
  Outputs := [⟨"cw", "cloudwatch", some ⟨"us-east-77", "namespaceName"⟩, some ⟨"my-secret"⟩⟩]
  Pipelines := [⟨"cw-forward", ["infrastructure"], ["cw"]⟩]

/-- The secret of the cloudwatch test with the key `role_arn`. -/
def sampleRoleSecret : Secret where
  Data := [("role_arn", "arn:aws:iam::123456789012:role/my-role-to-assume")]

/-- The factory of the cloudwatch test for a collector type. -/
def sampleFactory (t : LogCollectionType) : Factory where
  CollectorType := t
  ImageName := "collector"
  CollectorSpec := ⟨none, [], []⟩
  Secrets := [("cw", sampleRoleSecret)]

/-- The cloudwatch settings of the output of the test. -/
def sampleCloudwatch : Cloudwatch := ⟨"us-east-77", "namespaceName"⟩

/-- The cloudwatch output of the test. -/
def sampleOutput : OutputSpec := ⟨"cw", "cloudwatch", some sampleCloudwatch, some ⟨"my-secret"⟩⟩

/-- The role ARN of the test. -/
def sampleArn : String := "arn:aws:iam::123456789012:role/my-role-to-assume"

/-- The resource requirements that the test declares. -/
def sampleDeclared : ResourceRequirements where
  Limits := [("memory", "120Gi")]
  Requests := [("memory", "100Gi"), ("cpu", "500m")]

/-- The toleration that the test declares. -/
def sampleToleration : Toleration := ⟨"test", "Exists", "", "NoSchedule"⟩

/-- The factory of the test with declared resources and one declared toleration. -/
def sampleDeclaredFactory (t : LogCollectionType) : Factory where
  CollectorType := t
  ImageName := "collector"
  CollectorSpec := ⟨some sampleDeclared, [], [sampleToleration]⟩
  Secrets := []

/-! ## forwarding_controller.go

The cluster client, the loader, the build step `k8shandler.ReconcileForClusterLogForwarder`,
the condition helpers and the named constants are not among the embedded files and are the
fields of `Runtime`. The event recorder, the telemetry, the build step and the status write
are recorded as a list of effects in call order. -/

/-- A Go `error`: its `Error()` text and what `errors.IsNotFound` and
`validationerrors.IsValidationError` answer for it. -/
structure GoError where
  Message : String
  NotFound : Bool
  Validation : Bool
  deriving DecidableEq, Repr

/-- The struct `logging.Condition` (`Type_` is the Go field `Type`). -/
structure Condition where
  Type_ : String
  Status : String
  Reason : String
  Message : String
  deriving DecidableEq, Repr

/-- The struct `logging.ClusterLogForwarderStatus`. -/
structure ClusterLogForwarderStatus where
  Conditions : List Condition
  deriving DecidableEq, Repr

/-- The struct `logging.ClusterLogForwarder`. -/
structure ClusterLogForwarder where
  Namespace : String
  Name : String
  Spec : ClusterLogForwarderSpec
  Status : ClusterLogForwarderStatus
  deriving DecidableEq, Repr

/-- The struct `logging.ClusterLogging`; `Collection` is `Spec.Collection` with its type. -/
structure ClusterLogging where
  Namespace : String
  Name : String
  Collection : Option LogCollectionType
  deriving DecidableEq, Repr

/-- The struct `ctrl.Request` (`request.NamespacedName`). -/
structure Request where
  Namespace : String
  Name : String
  deriving DecidableEq, Repr

/-- The struct `ctrl.Result`; `RequeueAfter` is a `time.Duration` in nanoseconds. -/
structure Result where
  Requeue : Bool
  RequeueAfter : Nat
  deriving DecidableEq, Repr

/-- The zero value `ctrl.Result{}`. -/
def Result.empty : Result := ⟨false, 0⟩

/-- The constant `time.Second` in nanoseconds. -/
def Second : Nat := 1000000000

/-- The observable calls of a reconcile pass. -/
inductive Effect where
  /-- A call `r.Recorder.Event(object, eventtype, reason, message)`. -/
  | event (ns name eventtype reason message : String)
  /-- A call `telemetry.SetCLFMetrics(value)`. -/
  | setCLFMetrics (value : Nat)
  /-- A call `telemetry.Data.CLFInfo.Set("healthStatus", value)`. -/
  | setHealthStatus (value : String)
  /-- A call `k8shandler.ReconcileForClusterLogForwarder(&instance, ...)`: the build step. -/
  | build (before : ClusterLogForwarder)
  /-- A call `r.Client.Status().Update(ctx, instance)`. -/
  | statusUpdate (written : ClusterLogForwarder)
  deriving DecidableEq, Repr

/-- The collaborators and constants of the controller that are not among the embedded files. -/
structure Runtime where
  /-- The call `loader.FetchClusterLogging(r.Client, namespace, name, false)`. -/
  FetchClusterLogging : String → String → ClusterLogging × Option GoError
  /-- The call `loader.FetchClusterLogForwarder(r.Client, namespace, name, true, func)`; the
  third argument is the pointer `cl` that the closure dereferences. -/
  FetchClusterLogForwarder : String → String → Option ClusterLogging →
    ClusterLogForwarder × Option GoError × Option ClusterLogForwarderStatus
  /-- The call `factory.GenerateResourceNames(instance)`. -/
  GenerateResourceNames : ClusterLogForwarder → String
  /-- The build step: the instance after the call and the returned error. -/
  ReconcileForClusterLogForwarder : ClusterLogForwarder → Option ClusterLogging → String →
    ClusterLogForwarder × Option GoError
  /-- The call `r.Client.Status().Update(ctx, instance)`. -/
  StatusUpdate : ClusterLogForwarder → Option GoError
  /-- The method `Conditions.SetCondition`: the new conditions and the returned boolean. -/
  SetCondition : List Condition → Condition → List Condition × Bool
  /-- The method `Conditions.IsTrueFor`. -/
  IsTrueFor : List Condition → String → Bool
  ConditionReady : String
  CollectorDeadEnd : String
  ReasonInvalid : String
  OptimisticLockErrorMsg : String
  OpenshiftNS : String
  SingletonName : String
  EventReasonReconcilingLoggingCR : String
  UnHealthyStatus : String
  HealthyStatus : String

/-- The function `strings.Contains`. -/
def Contains (s substr : String) : Bool := decide (substr.data <:+: s.data)

/-- The constructor `logging.NewCondition` with its message already formatted. -/
def NewCondition (type status reason message : String) : Condition :=
  ⟨type, status, reason, message⟩

/-- Modelled from the spec: `logging.CondInvalid` (not among the embedded files), the
"invalid" condition of section 4.5: the ready condition with status `False`, the reason
`ReasonInvalid` and the formatted message. -/
def CondInvalid (R : Runtime) (message : String) : Condition :=
  NewCondition R.ConditionReady "False" R.ReasonInvalid message

/-- Modelled from the spec: `logging.CondReady` (not among the embedded files), the "ready"
condition of section 4.5: the ready condition with status `True`. -/
def CondReady (R : Runtime) : Condition :=
  NewCondition R.ConditionReady "True" "" ""

/-- The outcome of a function of the controller: its return values and its effects. -/
abbrev Outcome := (Result × Option GoError) × List Effect

/-- `updateStatus` (forwarding_controller.go 133-147). -/
def updateStatus (R : Runtime) (inst : ClusterLogForwarder) : Outcome :=
  match R.StatusUpdate inst with
  | some err =>
    if Contains err.Message R.OptimisticLockErrorMsg then
      ((⟨false, Second * 1⟩, none), [Effect.statusUpdate inst])
    else
      ((Result.empty, some err), [Effect.statusUpdate inst])
  | none => ((Result.empty, none), [Effect.statusUpdate inst])

/-- `fetchOrStubClusterLogging` (forwarding_controller.go 113-131). -/
def fetchOrStubClusterLogging (R : Runtime) (request : Request) :
    Option ClusterLogging × Option GoError :=
  match R.FetchClusterLogging request.Namespace request.Name with
  | (_, some err) =>
    if !err.NotFound then
      (none, some err)
    else if request.Namespace != R.OpenshiftNS ||
        (request.Namespace == R.OpenshiftNS && request.Name != R.SingletonName) then
      (some ⟨request.Namespace, request.Name, some LogCollectionType.vector⟩, none)
    else
      (none, some ⟨"ClusterLogging (" ++ request.Namespace ++ "/" ++ request.Name ++
        ") to support ClusterLogForwarder of same namespace and name not found", false, false⟩)
  | (cl, none) => (some cl, none)

/-- Lines 86-101 of `Reconcile`: the conditions set after the build step, given the instance
as the build step left it and the error it returned. -/
def markConditions (R : Runtime) (built : ClusterLogForwarder) (reconcileErr : Option GoError) :
    ClusterLogForwarder × List Effect :=
  match reconcileErr with
  | some e =>
    ({ built with Status.Conditions :=
        (R.SetCondition built.Status.Conditions
          (NewCondition R.CollectorDeadEnd "True" R.ReasonInvalid
            ("error reconciling clusterlogforwarder instance: " ++ e.Message))).1 },
     [Effect.setHealthStatus R.UnHealthyStatus])
  | none =>
    if R.IsTrueFor built.Status.Conditions R.ConditionReady then
      let cleared := (R.SetCondition built.Status.Conditions
        (NewCondition R.CollectorDeadEnd "False" "" "")).1
      let ready := R.SetCondition cleared (CondReady R)
      ({ built with Status.Conditions := ready.1 },
       if !ready.2 then
         [Effect.setHealthStatus R.HealthyStatus,
          Effect.event built.Namespace built.Name "Normal" R.ConditionReady
            "ClusterLogForwarder is valid"]
       else [])
    else (built, [])

/-- Lines 82-107 of `Reconcile`: the build step, the conditions and the status write. -/
def reconcileBuild (R : Runtime) (inst : ClusterLogForwarder) (cl : Option ClusterLogging) :
    Outcome :=
  let resourceNames := R.GenerateResourceNames inst
  let built := R.ReconcileForClusterLogForwarder inst cl resourceNames
  let reconcileErr := built.2
  let marked := markConditions R built.1 reconcileErr
  let written := updateStatus R marked.1
  let effects := [Effect.build inst] ++ marked.2 ++ written.2
  match written.1.2 with
  | some err => ((written.1.1, some err), effects)
  | none => ((Result.empty, reconcileErr), effects)

/-- Lines 62-65 of `Reconcile`: the fetched instance, with the returned status put on it when
there is one, and the returned error. -/
def fetchForwarder (R : Runtime) (request : Request) (cl : Option ClusterLogging) :
    ClusterLogForwarder × Option GoError :=
  let fetched := R.FetchClusterLogForwarder request.Namespace request.Name cl
  match fetched.2.2 with
  | some status => ({ fetched.1 with Status := status }, fetched.2.1)
  | none => (fetched.1, fetched.2.1)

/-- Lines 69-70 of `Reconcile`: the instance with the invalid condition set on its status. -/
def markInvalid (R : Runtime) (inst : ClusterLogForwarder) (err : GoError) :
    ClusterLogForwarder :=
  { inst with Status.Conditions :=
      (R.SetCondition inst.Status.Conditions
        (CondInvalid R ("validation failed: " ++ err.Message))).1 }

/-- Lines 61-107 of `Reconcile`: the fetch of the forwarder and what follows it. -/
def reconcileInstance (R : Runtime) (request : Request) (cl : Option ClusterLogging) : Outcome :=
  let fetched := fetchForwarder R request cl
  match fetched.2 with
  | some err =>
    if err.Validation then
      let condition := CondInvalid R ("validation failed: " ++ err.Message)
      let inst := markInvalid R fetched.1 err
      let written := updateStatus R inst
      (written.1,
       [Effect.event inst.Namespace inst.Name "Warning" R.ReasonInvalid condition.Message,
        Effect.setHealthStatus R.UnHealthyStatus] ++ written.2)
    else if !err.NotFound then
      ((Result.empty, some err), [])
    else
      ((Result.empty, none), [])
  | none => reconcileBuild R fetched.1 cl

/-- `ReconcileForwarder.Reconcile` (forwarding_controller.go 49-108); the deferred
`telemetry.SetCLFMetrics(1)` is the last effect of every return. -/
def Reconcile (R : Runtime) (request : Request) : Outcome :=
  let opening : List Effect :=
    [Effect.event request.Namespace request.Name "Normal" R.EventReasonReconcilingLoggingCR
       "Reconciling logging resource",
     Effect.setCLFMetrics 0]
  let fetched := fetchOrStubClusterLogging R request
  let body : Outcome :=
    match fetched.2 with
    | some err =>
      if !err.NotFound then ((Result.empty, some err), [])
      else reconcileInstance R request fetched.1
    | none => reconcileInstance R request fetched.1
  (body.1, opening ++ body.2 ++ [Effect.setCLFMetrics 1])

/-- Whether a list of effects holds a call of the build step. -/
def invokesBuild (effects : List Effect) : Bool :=
  effects.any (fun e => match e with | Effect.build _ => true | _ => false)

/-- The text of an optimistic-lock conflict as the API server words it. -/
def sampleLockMsg : String :=
  "the object has been modified; please apply your changes to the latest version and try again"

/-- A forwarder instance for concrete evaluations. -/
def sampleForwarder : ClusterLogForwarder where
  Namespace := "openshift-logging"
  Name := "instance"
  Spec := sampleForwarderSpec
  Status := ⟨[]⟩

/-- A runtime for concrete evaluations: both fetches succeed (or the forwarder fetch returns
`fetchErr`), the build step returns `buildErr`, and the status write fails with `writeErr`.
`SetCondition` replaces the condition of the same type or appends a new one. -/
def sampleRuntime (fetchErr buildErr writeErr : Option GoError) : Runtime where
  FetchClusterLogging := fun ns name => (⟨ns, name, some LogCollectionType.vector⟩, none)
  FetchClusterLogForwarder := fun _ _ _ => (sampleForwarder, fetchErr, none)
  GenerateResourceNames := fun i => i.Name
  ReconcileForClusterLogForwarder := fun i _ _ => (i, buildErr)
  StatusUpdate := fun _ => writeErr
  SetCondition := fun cs c =>
    if cs.any (fun x => x.Type_ == c.Type_) then
      (cs.map (fun x => if x.Type_ == c.Type_ then c else x), !cs.contains c)
    else (cs ++ [c], true)
  IsTrueFor := fun cs t => cs.any (fun x => x.Type_ == t && x.Status == "True")
  ConditionReady := "Ready"
  CollectorDeadEnd := "CollectorDeadEnd"
  ReasonInvalid := "Invalid"
  OptimisticLockErrorMsg := sampleLockMsg
  OpenshiftNS := "openshift-logging"
  SingletonName := "instance"
  EventReasonReconcilingLoggingCR := "ReconcilingLoggingCR"
  UnHealthyStatus := "0"
  HealthyStatus := "1"

/-- The error of a status write that loses an optimistic-lock race. -/
def sampleConflict : GoError where
  Message := "Operation cannot be fulfilled on clusterlogforwarders.logging.openshift.io " ++
    "\"instance\": " ++ sampleLockMsg
  NotFound := false
  Validation := false

/-- A validation error of the forwarder fetch. -/
def sampleValidationError : GoError where
  Message := "output \"cw\" is not declared"
  NotFound := false
  Validation := true

/-- The request of the sample passes. -/
def sampleRequest : Request := ⟨"openshift-logging", "instance"⟩

/-- Whether a list of effects holds an event with the message `ClusterLogForwarder is valid`. -/
def emitsValidEvent (effects : List Effect) : Bool :=
  effects.any (fun e =>
    match e with
    | Effect.event _ _ _ _ message => message == "ClusterLogForwarder is valid"
    | _ => false)

/-- A forwarder instance whose status already holds the ready condition with status `True`. -/
def sampleReadyForwarder : ClusterLogForwarder where
  Namespace := "openshift-logging"
  Name := "instance"
  Spec := sampleForwarderSpec
  Status := ⟨[⟨"Ready", "True", "", ""⟩]⟩

/-- The runtime `sampleRuntime none none none` with `sampleReadyForwarder` as the fetched
instance: every fetch, the build step and the status write succeed. -/
def sampleReadyRuntime : Runtime :=
  { sampleRuntime none none none with
    FetchClusterLogForwarder := fun _ _ _ => (sampleReadyForwarder, none, none) }

/-- A global options map with cipher suites and no minimum TLS version. -/
def sampleCipherPolicy : Options := [("ciphers", .str "TLS_AES_128_GCM_SHA256")]

/-- The `TLSConf` that `New` builds for the output `es` from `sampleTLSSpec` and a policy. -/
def sampleSpecConf (minV ciph : String) : TLSConf where
  Component := "sinks"
  ID := "es"
  Enabled := OptionalPair.zero
  NeedsEnabled := true
  InsecureSkipVerify := true
  TlsMinVersion := minV
  CipherSuites := ciph
  CAFilePath := "/var/run/ocp-collector/config/my-ca/ca-bundle.crt"
  CertPath := "/var/run/ocp-collector/secrets/my-secret/tls.crt"
  KeyPath := "/var/run/ocp-collector/secrets/my-secret/tls.key"
  PassPhrase := ""

/-- The error of a status write that fails for another reason than a conflict. -/
def sampleWriteError : GoError where
  Message := "connection refused"
  NotFound := false
  Validation := false

/-- A runtime whose forwarder fetch fails validation and returns, beside the instance, a status
that holds a dead-end condition; the fetch of the ClusterLogging and the status write succeed. -/
def sampleInvalidRuntime : Runtime :=
  { sampleRuntime (some sampleValidationError) none none with
    FetchClusterLogForwarder := fun _ _ _ =>
      (sampleForwarder, some sampleValidationError,
       some ⟨[⟨"CollectorDeadEnd", "True", "Invalid", "earlier failure"⟩]⟩) }

/-! ## Theorems of the TLS builder and of path resolution -/

/-- The initial `TLSConf` carries the id and has every other field but `Component` at its zero
value. -/
theorem initialConf_fields (I : Imports) (id : String) (options : List FrameworkOption)
    (conf : TLSConf) (h : initialConf I id options = some conf) :
    conf.ID = id ∧ conf.Enabled = OptionalPair.zero ∧ conf.NeedsEnabled = false ∧
    conf.InsecureSkipVerify = false ∧ conf.TlsMinVersion = "" ∧ conf.CipherSuites = "" ∧
    conf.CAFilePath = "" ∧ conf.CertPath = "" ∧ conf.KeyPath = "" ∧ conf.PassPhrase = "" := by
  unfold initialConf at h
  cases hc : I.HasOption Component options with
  | none => simp [hc] at h; subst h; simp
  | some v =>
    cases v <;> simp [hc, GoAny.assertString] at h
    subst h; simp

/-- The component of the initial `TLSConf` is the component option, or `sinks` without one. -/
theorem initialConf_component (I : Imports) (id : String) (options : List FrameworkOption)
    (conf : TLSConf) (h : initialConf I id options = some conf) :
    some conf.Component = (stringEntry (I.HasOption Component options)).map
      (fun c => if (I.HasOption Component options).isSome then c else "sinks") := by
  unfold initialConf at h
  cases hc : I.HasOption Component options with
  | none => simp [hc] at h; subst h; simp [stringEntry]
  | some v =>
    cases v <;> simp [hc, GoAny.assertString] at h
    subst h; simp [stringEntry, GoAny.assertString]

/-- A nil spec leaves the `TLSConf` as it is. -/
theorem applySpec_none (I : Imports) (conf : TLSConf) (secrets : Secrets)
    (options : List FrameworkOption) : applySpec I conf none secrets options = conf := by
  simp [applySpec]

/-- The spec does not touch the flag, the policy fields, the component and the id. -/
theorem applySpec_frame (I : Imports) (conf : TLSConf) (spec : Option OutputTLSSpec)
    (secrets : Secrets) (options : List FrameworkOption) :
    (applySpec I conf spec secrets options).NeedsEnabled = conf.NeedsEnabled ∧
    (applySpec I conf spec secrets options).TlsMinVersion = conf.TlsMinVersion ∧
    (applySpec I conf spec secrets options).CipherSuites = conf.CipherSuites ∧
    (applySpec I conf spec secrets options).Component = conf.Component ∧
    (applySpec I conf spec secrets options).ID = conf.ID := by
  unfold applySpec
  cases spec
  · simp
  · simp; split <;> simp

/-- A call of `setTLSProfileFromOptions` that returns has string entries and changes only the two
policy fields. -/
theorem setTLSProfileFromOptions_some (I : Imports) (t t2 : TLSConf) (op : Options)
    (h : setTLSProfileFromOptions I t op = some t2) :
    ∃ v c, stringEntry (op.lookup I.MinTLSVersion) = some v ∧
      stringEntry (op.lookup I.Ciphers) = some c ∧
      t2 = { t with
        TlsMinVersion := if (op.lookup I.MinTLSVersion).isSome then v else t.TlsMinVersion
        CipherSuites := if (op.lookup I.Ciphers).isSome then c else t.CipherSuites } := by
  unfold setTLSProfileFromOptions at h
  cases hv : op.lookup I.MinTLSVersion with
  | none =>
    cases hc : op.lookup I.Ciphers with
    | none => simp [hv, hc] at h; subst h; simp [stringEntry]
    | some c =>
      cases c <;> simp [hv, hc, GoAny.assertString] at h
      subst h; simp [stringEntry, GoAny.assertString]
  | some v =>
    cases v <;> simp [hv, GoAny.assertString] at h
    cases hc : op.lookup I.Ciphers with
    | none => simp [hc] at h; subst h; simp [stringEntry, GoAny.assertString]
    | some c =>
      cases c <;> simp [hc, GoAny.assertString] at h
      subst h; simp [stringEntry, GoAny.assertString]

/-- With string entries `setTLSProfileFromOptions` returns. -/
theorem setTLSProfileFromOptions_of_strings (I : Imports) (t : TLSConf) (op : Options)
    (v c : String) (hv : stringEntry (op.lookup I.MinTLSVersion) = some v)
    (hc : stringEntry (op.lookup I.Ciphers) = some c) :
    setTLSProfileFromOptions I t op = some { t with
        TlsMinVersion := if (op.lookup I.MinTLSVersion).isSome then v else t.TlsMinVersion
        CipherSuites := if (op.lookup I.Ciphers).isSome then c else t.CipherSuites } := by
  unfold setTLSProfileFromOptions
  cases hv2 : op.lookup I.MinTLSVersion with
  | none =>
    cases hc2 : op.lookup I.Ciphers with
    | none => simp
    | some c2 =>
      cases c2 <;> simp [hc2, stringEntry, GoAny.assertString] at hc
      subst hc; simp [GoAny.assertString]
  | some v2 =>
    cases v2 <;> simp [hv2, stringEntry, GoAny.assertString] at hv
    subst hv
    cases hc2 : op.lookup I.Ciphers with
    | none => simp [GoAny.assertString]
    | some c2 =>
      cases c2 <;> simp [hc2, stringEntry, GoAny.assertString] at hc
      subst hc; simp [GoAny.assertString]

/-- Lines 60-62 change no field but `NeedsEnabled`. -/
theorem markNeedsEnabled_frame (conf : TLSConf) (spec : Option OutputTLSSpec) :
    (markNeedsEnabled conf spec).CipherSuites = conf.CipherSuites ∧
    (markNeedsEnabled conf spec).TlsMinVersion = conf.TlsMinVersion ∧
    (markNeedsEnabled conf spec).Component = conf.Component ∧
    (markNeedsEnabled conf spec).ID = conf.ID ∧
    (markNeedsEnabled conf spec).Enabled = conf.Enabled ∧
    (markNeedsEnabled conf spec).InsecureSkipVerify = conf.InsecureSkipVerify ∧
    (markNeedsEnabled conf spec).CAFilePath = conf.CAFilePath ∧
    (markNeedsEnabled conf spec).CertPath = conf.CertPath ∧
    (markNeedsEnabled conf spec).KeyPath = conf.KeyPath ∧
    (markNeedsEnabled conf spec).PassPhrase = conf.PassPhrase := by
  unfold markNeedsEnabled
  split <;> simp

/-- Lines 60-62 set the flag exactly under their condition when it was false before. -/
theorem markNeedsEnabled_flag (conf : TLSConf) (spec : Option OutputTLSSpec)
    (h : conf.NeedsEnabled = false) :
    (markNeedsEnabled conf spec).NeedsEnabled = true ↔
      (conf.CipherSuites ≠ "" ∨ conf.TlsMinVersion ≠ "" ∨ spec ≠ none) := by
  unfold markNeedsEnabled
  cases spec <;> by_cases h1 : conf.CipherSuites = "" <;> by_cases h2 : conf.TlsMinVersion = ""
    <;> simp [h, h1, h2]

/-- Decomposition of a call of `New` that returns a `TLSConf`. -/
theorem New_conf_inv (I : Imports) (id : String) (spec : Option OutputTLSSpec) (secrets : Secrets)
    (op : Options) (options : List FrameworkOption) (c : TLSConf)
    (h : New I id spec secrets op options = some (Element.TLSConf c)) :
    ∃ conf0 conf1, plaintextURL I options = some false ∧
      initialConf I id options = some conf0 ∧
      setTLSProfileFromOptions I (applySpec I conf0 spec secrets options) op = some conf1 ∧
      c = markNeedsEnabled conf1 spec := by
  unfold New at h
  cases hp : plaintextURL I options with
  | none => simp [hp] at h
  | some b =>
    cases b with
    | true => simp [hp] at h
    | false =>
      simp only [hp, Option.some_bind, Bool.false_eq_true, if_false] at h
      cases h0 : initialConf I id options with
      | none => simp [h0] at h
      | some conf0 =>
        simp only [h0, Option.some_bind] at h
        cases h1 : setTLSProfileFromOptions I (applySpec I conf0 spec secrets options) op with
        | none => simp [h1] at h
        | some conf1 =>
          simp only [h1, Option.map_some', Option.some.injEq, Element.TLSConf.injEq] at h
          exact ⟨conf0, conf1, rfl, rfl, h1, h.symm⟩

/-- C1: when the URL option given to `New` is present, is a string and is not a secure-scheme
URL, `New` returns `framework.Nil`, for every output id, TLS spec (nil or not), secrets map
and global options map. -/
theorem New_plaintext_url_returns_Nil (I : Imports) (id : String) (spec : Option OutputTLSSpec)
    (secrets : Secrets) (op : Options) (options : List FrameworkOption) (u : String)
    (hurl : I.HasOption I.URL options = some (GoAny.str u)) (hplain : I.IsSecure u = false) :
    New I id spec secrets op options = some Element.Nil := by
  simp [New, plaintextURL, hurl, GoAny.assertString, hplain]

theorem New_plaintext_url_returns_Nil_witness :
    sampleImports.HasOption sampleImports.URL samplePlainURL = some (GoAny.str "http://es:9200") ∧
    sampleImports.IsSecure "http://es:9200" = false ∧
    New sampleImports "es" (some sampleTLSSpec) [] samplePolicy samplePlainURL =
      some Element.Nil :=
  ⟨by decide, by decide,
   New_plaintext_url_returns_Nil sampleImports "es" (some sampleTLSSpec) [] samplePolicy
     samplePlainURL "http://es:9200" (by decide) (by decide)⟩

/-- C2: a `TLSConf` returned by `New` has `NeedsEnabled = true` exactly when its `CipherSuites`
is not empty, or its `TlsMinVersion` is not empty, or the TLS spec is not nil; with a nil spec
and neither a minimum-version nor a cipher entry in the options map, `NeedsEnabled` is false
and the block renders as the empty text. -/
theorem New_needsEnabled_iff (I : Imports) (id : String) (spec : Option OutputTLSSpec)
    (secrets : Secrets) (op : Options) (options : List FrameworkOption) (c : TLSConf)
    (h : New I id spec secrets op options = some (Element.TLSConf c)) :
    (c.NeedsEnabled = true ↔ (c.CipherSuites ≠ "" ∨ c.TlsMinVersion ≠ "" ∨ spec ≠ none)) ∧
    (spec = none → op.lookup I.MinTLSVersion = none → op.lookup I.Ciphers = none →
      c.NeedsEnabled = false ∧ c.render = "") := by
  obtain ⟨conf0, conf1, _, h0, h1, rfl⟩ := New_conf_inv I id spec secrets op options c h
  have hf := initialConf_fields I id options conf0 h0
  have ha := applySpec_frame I conf0 spec secrets options
  obtain ⟨v, cs, hv, hc, h2⟩ := setTLSProfileFromOptions_some I _ conf1 op h1
  have hn : conf1.NeedsEnabled = false := by
    rw [h2]; simp [ha.1, hf.2.2.1]
  have hm := markNeedsEnabled_frame conf1 spec
  refine ⟨?_, ?_⟩
  · rw [hm.1, hm.2.1]
    exact markNeedsEnabled_flag conf1 spec hn
  · intro hs hmin hcs
    have h3 : ¬ ((markNeedsEnabled conf1 spec).NeedsEnabled = true) := by
      rw [markNeedsEnabled_flag conf1 spec hn]
      rw [h2]
      simp [hmin, hcs, applySpec_none, hf.2.2.2.2.1, hf.2.2.2.2.2.1, hs]
    have h4 : (markNeedsEnabled conf1 spec).NeedsEnabled = false := by simpa using h3
    exact ⟨h4, by simp [TLSConf.render, TLSConf.Template, h4, execute]⟩

theorem New_needsEnabled_iff_witness :
    New sampleImports "es" none [] [] sampleSecureURL = some (Element.TLSConf sampleBareConf) ∧
    ((sampleBareConf.NeedsEnabled = true ↔
        (sampleBareConf.CipherSuites ≠ "" ∨ sampleBareConf.TlsMinVersion ≠ "" ∨
          (none : Option OutputTLSSpec) ≠ none)) ∧
      ((none : Option OutputTLSSpec) = none →
        List.lookup sampleImports.MinTLSVersion ([] : Options) = none →
        List.lookup sampleImports.Ciphers ([] : Options) = none →
        sampleBareConf.NeedsEnabled = false ∧ sampleBareConf.render = "")) :=
  ⟨by decide,
   New_needsEnabled_iff sampleImports "es" none [] [] sampleSecureURL sampleBareConf
     (by decide)⟩

/-- C3: with a secure URL option, a nil TLS spec and a global options map that carries a
non-empty minimum TLS version or a non-empty cipher-suite string (the option values that
`New` asserts to be strings being strings), `New` returns a `TLSConf` with
`NeedsEnabled = true`, empty `CAFilePath`, `CertPath`, `KeyPath` and `PassPhrase`,
`InsecureSkipVerify = false` and an absent `Enabled`; its rendered block is the section
header followed only by the `min_tls_version` and `ciphersuites` lines of the policy. -/
theorem New_nil_spec_policy_only (I : Imports) (id : String) (secrets : Secrets) (op : Options)
    (options : List FrameworkOption) (u minV ciph : String)
    (hurl : I.HasOption I.URL options = some (GoAny.str u)) (hsec : I.IsSecure u = true)
    (hcomp : ∀ v, I.HasOption Component options = some v → ∃ s, v = GoAny.str s)
    (hmin : stringEntry (op.lookup I.MinTLSVersion) = some minV)
    (hciph : stringEntry (op.lookup I.Ciphers) = some ciph)
    (hpolicy : minV ≠ "" ∨ ciph ≠ "") :
    ∃ c, New I id none secrets op options = some (Element.TLSConf c) ∧
      c.NeedsEnabled = true ∧ c.CAFilePath = "" ∧ c.CertPath = "" ∧ c.KeyPath = "" ∧
      c.PassPhrase = "" ∧ c.InsecureSkipVerify = false ∧ c.Enabled = OptionalPair.zero ∧
      c.ID = id ∧ c.TlsMinVersion = minV ∧ c.CipherSuites = ciph ∧
      c.render = "[" ++ c.Component ++ "." ++ id ++ ".tls]\n"
        ++ (if minV ≠ "" then "\nmin_tls_version = \"" ++ minV ++ "\"" else "")
        ++ (if ciph ≠ "" then "\nciphersuites = \"" ++ ciph ++ "\"" else "")
        ++ "\n" := by
  have hp : plaintextURL I options = some false := by
    simp [plaintextURL, hurl, GoAny.assertString, hsec]
  obtain ⟨conf0, h0⟩ : ∃ conf0, initialConf I id options = some conf0 := by
    unfold initialConf
    cases hc : I.HasOption Component options with
    | none => exact ⟨_, rfl⟩
    | some v =>
      obtain ⟨s, rfl⟩ := hcomp v hc
      exact ⟨_, rfl⟩
  have hf := initialConf_fields I id options conf0 h0
  have h1 := setTLSProfileFromOptions_of_strings I (applySpec I conf0 none secrets options) op
    minV ciph hmin hciph
  have hminV : (if (op.lookup I.MinTLSVersion).isSome then minV else "") = minV := by
    cases hl : op.lookup I.MinTLSVersion with
    | none => simp [hl, stringEntry] at hmin; simp [hmin]
    | some v => simp
  have hciphV : (if (op.lookup I.Ciphers).isSome then ciph else "") = ciph := by
    cases hl : op.lookup I.Ciphers with
    | none => simp [hl, stringEntry] at hciph; simp [hciph]
    | some v => simp
  rw [applySpec_none] at h1
  simp only [hf.2.2.2.2.1, hf.2.2.2.2.2.1, hminV, hciphV] at h1
  refine ⟨markNeedsEnabled { conf0 with TlsMinVersion := minV, CipherSuites := ciph } none, ?_, ?_⟩
  · simp only [New, hp, Option.some_bind, Bool.false_eq_true, if_false, h0, applySpec_none, h1,
      Option.map_some']
  · obtain ⟨e1, e2, e3, e4, e5, e6, e7, e8, e9, e10⟩ := hf
    have hne : (ciph != "" || minV != "") = true := by
      rcases hpolicy with h | h <;> simp [h]
    have hm : markNeedsEnabled { conf0 with TlsMinVersion := minV, CipherSuites := ciph } none
        = { conf0 with TlsMinVersion := minV, CipherSuites := ciph, NeedsEnabled := true } := by
      simp only [markNeedsEnabled, Option.isSome_none, Bool.or_false, hne, if_true]
    rw [hm]
    refine ⟨rfl, e7, e8, e9, e10, e4, e2, e1, rfl, rfl, ?_⟩
    simp [TLSConf.render, TLSConf.Template, execute, Node.execute, Item.execute, executeItems,
      Cond.eval, StrField.get, e1, e2, e4, e7, e8, e9, e10, OptionalPair.zero,
      OptionalPair.String, String.append_assoc]

theorem New_nil_spec_policy_only_witness :
    sampleImports.HasOption sampleImports.URL sampleSecureURL =
      some (GoAny.str "https://es:9200") ∧
    sampleImports.IsSecure "https://es:9200" = true ∧
    sampleImports.HasOption Component sampleSecureURL = none ∧
    stringEntry (samplePolicy.lookup sampleImports.MinTLSVersion) = some "VersionTLS12" ∧
    stringEntry (samplePolicy.lookup sampleImports.Ciphers) = some "" ∧
    ∃ c, New sampleImports "es" none [] samplePolicy sampleSecureURL = some (Element.TLSConf c) ∧
      c.NeedsEnabled = true ∧ c.CAFilePath = "" ∧ c.CertPath = "" ∧ c.KeyPath = "" ∧
      c.PassPhrase = "" ∧ c.InsecureSkipVerify = false ∧ c.Enabled = OptionalPair.zero ∧
      c.ID = "es" ∧ c.TlsMinVersion = "VersionTLS12" ∧ c.CipherSuites = "" ∧
      c.render = "[" ++ c.Component ++ "." ++ "es" ++ ".tls]\n"
        ++ (if "VersionTLS12" ≠ "" then "\nmin_tls_version = \"" ++ "VersionTLS12" ++ "\"" else "")
        ++ (if "" ≠ "" then "\nciphersuites = \"" ++ "" ++ "\"" else "")
        ++ "\n" :=
  ⟨by decide, by decide, by decide, by decide, by decide,
   New_nil_spec_policy_only sampleImports "es" [] samplePolicy sampleSecureURL
     "https://es:9200" "VersionTLS12" "" (by decide) (by decide)
     (fun v h => absurd h (by
       have h0 : sampleImports.HasOption Component sampleSecureURL = none := by decide
       rw [h0]; exact fun h1 => Option.noConfusion h1))
     (by decide) (by decide) (Or.inl (by decide))⟩

/-- C4: `ConfigMapOrSecretPath(nil)` and `SecretPath(nil)` are the empty string, `SecretPath` of
a reference whose `Secret` is nil is the empty string, and `ConfigMapOrSecretPath` of a
reference that names neither a secret nor a config map is the empty string; both functions
are total. -/
theorem path_resolution_total (I : Imports) :
    ConfigMapOrSecretPath I none = "" ∧ SecretPath I none = "" ∧
    (∀ key, SecretPath I (some ⟨key, none⟩) = "") ∧
    (∀ key, ConfigMapOrSecretPath I (some ⟨key, none, none⟩) = "") := by
  simp [ConfigMapOrSecretPath, SecretPath]

/-- C5: for a non-nil reference, `ConfigMapOrSecretPath` is `helpers.SecretPath(secret name,
key)` when a secret is named (also when a config map is named too) and
`helpers.ConfigPath(config map name, key)` when only a config map is named; two references
with the same key that name the same secret, or no secret and the same config map, resolve to
the same path. -/
theorem ConfigMapOrSecretPath_deterministic (I : Imports) :
    (∀ (r : ConfigMapOrSecretKey) (s : LocalObjectReference), r.Secret = some s →
      ConfigMapOrSecretPath I (some r) = I.SecretPath s.Name r.Key) ∧
    (∀ (r : ConfigMapOrSecretKey) (c : LocalObjectReference), r.Secret = none →
      r.ConfigMap = some c → ConfigMapOrSecretPath I (some r) = I.ConfigPath c.Name r.Key) ∧
    (∀ r1 r2 : ConfigMapOrSecretKey, r1.Key = r2.Key → r1.Secret = r2.Secret →
      (r1.Secret = none → r1.ConfigMap = r2.ConfigMap) →
      ConfigMapOrSecretPath I (some r1) = ConfigMapOrSecretPath I (some r2)) := by
  refine ⟨?_, ?_, ?_⟩
  · intro r s hs
    simp [ConfigMapOrSecretPath, hs]
  · intro r c hs hc
    simp [ConfigMapOrSecretPath, hs, hc]
  · intro r1 r2 hk hs hc
    unfold ConfigMapOrSecretPath
    cases h1 : r1.Secret with
    | some s => simp [← hs, h1, hk]
    | none => simp [← hs, h1, ← hc h1, hk]

theorem ConfigMapOrSecretPath_deterministic_witness :
    sampleBothRef.Secret = some ⟨"my-secret"⟩ ∧
    ConfigMapOrSecretPath sampleImports (some sampleBothRef) =
      sampleImports.SecretPath "my-secret" "ca.crt" ∧
    sampleConfigRef.Secret = none ∧ sampleConfigRef.ConfigMap = some ⟨"my-ca"⟩ ∧
    ConfigMapOrSecretPath sampleImports (some sampleConfigRef) =
      sampleImports.ConfigPath "my-ca" "ca.crt" ∧
    sampleBothRef.Key = sampleOtherRef.Key ∧ sampleBothRef.Secret = sampleOtherRef.Secret ∧
    ConfigMapOrSecretPath sampleImports (some sampleBothRef) =
      ConfigMapOrSecretPath sampleImports (some sampleOtherRef) :=
  ⟨rfl,
   (ConfigMapOrSecretPath_deterministic sampleImports).1 sampleBothRef ⟨"my-secret"⟩ rfl,
   rfl, rfl,
   (ConfigMapOrSecretPath_deterministic sampleImports).2.1 sampleConfigRef ⟨"my-ca"⟩ rfl rfl,
   rfl, rfl,
   (ConfigMapOrSecretPath_deterministic sampleImports).2.2 sampleBothRef sampleOtherRef rfl rfl
     (fun h => absurd h (by decide))⟩

/-! ## Lemmas of the workload factory -/

/-- The variables of one declared output are among the variables of all outputs. -/
theorem outputCredentialEnv_subset (K : FactoryConstants) (secrets : List (String × Secret))
    (outputs : List OutputSpec) (o : OutputSpec) (ho : o ∈ outputs) (e : EnvVar)
    (he : e ∈ outputCredentialEnv K secrets o) :
    e ∈ credentialEnvOfOutputs K secrets outputs := by
  induction outputs with
  | nil => simp at ho
  | cons x rest ih =>
    simp only [credentialEnvOfOutputs, List.mem_append]
    rcases List.mem_cons.mp ho with h | h
    · left; rw [← h]; exact he
    · right; exact ih h

/-- A cloudwatch output whose secret carries one of the two keys gets the four variables. -/
theorem outputCredentialEnv_of_secret (K : FactoryConstants) (secrets : List (String × Secret))
    (o : OutputSpec) (cw : Cloudwatch) (secret : Secret)
    (ht : o.Type_ = K.OutputTypeCloudwatch) (hcw : o.Cloudwatch = some cw)
    (hs : secrets.lookup o.Name = some secret)
    (hkey : (secret.Data.lookup "credentials").isSome ∨ (secret.Data.lookup "role_arn").isSome) :
    outputCredentialEnv K secrets o = webIdentityEnvVars K cw secret := by
  have hshape : credentialShape secret ≠ CredentialShape.None := by
    unfold credentialShape
    rcases hkey with h | h
    · simp [h]
    · by_cases h2 : (secret.Data.lookup "credentials").isSome <;> simp [h, h2]
  simp [outputCredentialEnv, ht, hcw, hs, hshape]

/-- C6: for a forwarder spec with a cloudwatch output whose secret carries the role ARN under
the key `credentials`, or under the key `role_arn`, the collector container built by
`NewPodSpec` includes the four web-identity variables (region of the output, role ARN of the
secret, `AWSRoleSessionName`, the joined token path) when the collector type is vector, and
no variable with one of the four names when the collector type is fluentd (the four names
being distinct from the names of the pod IP and proxy variables). It holds whether or not a
pipeline references the output. -/
theorem NewPodSpec_cloudwatch_sts (K : FactoryConstants) (f : Factory)
    (trustedCABundle : Option ConfigMap) (spec : ClusterLogForwarderSpec)
    (clusterID schemaVersion : String) (o : OutputSpec)
    (cw : Cloudwatch) (secret : Secret) (arn : String)
    (ho : o ∈ spec.Outputs) (ht : o.Type_ = K.OutputTypeCloudwatch)
    (hcw : o.Cloudwatch = some cw) (hs : f.Secrets.lookup o.Name = some secret)
    (harn : secret.Data.lookup "credentials" = some arn ∨
      (secret.Data.lookup "credentials" = none ∧ secret.Data.lookup "role_arn" = some arn)) :
    ∃ c, (f.NewPodSpec K trustedCABundle spec clusterID schemaVersion).Containers = [c] ∧
      (f.CollectorType = LogCollectionType.vector →
        (⟨K.AWSRegionEnvVarKey, cw.Region, none⟩ : EnvVar) ∈ c.Env ∧
        (⟨K.AWSRoleArnEnvVarKey, arn, none⟩ : EnvVar) ∈ c.Env ∧
        (⟨K.AWSRoleSessionEnvVarKey, K.AWSRoleSessionName, none⟩ : EnvVar) ∈ c.Env ∧
        (⟨K.AWSWebIdentityTokenEnvVarKey,
          K.pathJoin K.AWSWebIdentityTokenMount K.AWSWebIdentityTokenFilePath, none⟩ : EnvVar)
          ∈ c.Env) ∧
      (f.CollectorType = LogCollectionType.fluentd →
        (∀ n ∈ webIdentityNames K, n ∉ ["POD_IP", "HTTP_PROXY", "HTTPS_PROXY", "NO_PROXY"]) →
        ∀ e ∈ c.Env, e.Name ∉ webIdentityNames K) := by
  refine ⟨f.NewCollectorContainer K trustedCABundle spec, rfl, ?_, ?_⟩
  · intro hv
    have hkey : (secret.Data.lookup "credentials").isSome ∨
        (secret.Data.lookup "role_arn").isSome := by
      rcases harn with h | h
      · left; simp [h]
      · right; simp [h.2]
    have hrole : roleArn secret = arn := by
      unfold roleArn
      rcases harn with h | h
      · simp [h]
      · simp [h.1, h.2]
    have henv := outputCredentialEnv_of_secret K f.Secrets o cw secret ht hcw hs hkey
    have hsub : ∀ e ∈ webIdentityEnvVars K cw secret,
        e ∈ (f.NewCollectorContainer K trustedCABundle spec).Env := by
      intro e he
      simp only [Factory.NewCollectorContainer, credentialEnv, hv, LogCollectionType.injectsSTS,
        if_true, List.mem_append]
      right
      exact outputCredentialEnv_subset K f.Secrets spec.Outputs o ho e (henv ▸ he)
    refine ⟨hsub _ ?_, hsub _ ?_, hsub _ ?_, hsub _ ?_⟩ <;>
      simp [webIdentityEnvVars, hrole]
  · intro hfl hnames e he
    simp only [Factory.NewCollectorContainer, credentialEnv, hfl, LogCollectionType.injectsSTS,
      Bool.false_eq_true, if_false, List.append_nil, List.mem_append] at he
    intro hmem
    have hbase := hnames e.Name hmem
    apply hbase
    rcases he with he | he
    · simp at he; subst he; simp
    · unfold proxyEnvVars at he
      cases hp : K.proxyEnv with
      | none => simp [hp] at he
      | some t =>
        obtain ⟨a, b, c⟩ := t
        simp [hp] at he
        rcases he with h | h | h <;> subst h <;> simp

theorem NewPodSpec_cloudwatch_sts_witness :
    sampleOutput ∈ sampleForwarderSpec.Outputs ∧
    sampleOutput.Type_ = sampleConstants.OutputTypeCloudwatch ∧
    sampleOutput.Cloudwatch = some sampleCloudwatch ∧
    (sampleFactory LogCollectionType.vector).Secrets.lookup sampleOutput.Name =
      some sampleRoleSecret ∧
    sampleRoleSecret.Data.lookup "credentials" = none ∧
    sampleRoleSecret.Data.lookup "role_arn" = some sampleArn ∧
    (∃ c, ((sampleFactory LogCollectionType.vector).NewPodSpec sampleConstants none
        sampleForwarderSpec "1234" "").Containers = [c] ∧
      (⟨"AWS_REGION", "us-east-77", none⟩ : EnvVar) ∈ c.Env ∧
      (⟨"AWS_ROLE_ARN", sampleArn, none⟩ : EnvVar) ∈ c.Env ∧
      (⟨"AWS_ROLE_SESSION_NAME", "output-cloudwatch", none⟩ : EnvVar) ∈ c.Env ∧
      (⟨"AWS_WEB_IDENTITY_TOKEN_FILE", "/var/run/secrets/openshift/serviceaccount/token",
        none⟩ : EnvVar) ∈ c.Env) ∧
    (∃ c, ((sampleFactory LogCollectionType.fluentd).NewPodSpec sampleConstants none
        sampleForwarderSpec "1234" "").Containers = [c] ∧
      ∀ e ∈ c.Env, e.Name ∉ webIdentityNames sampleConstants) := by
  refine ⟨by decide, by decide, by decide, by decide, by decide, by decide, ?_, ?_⟩
  · obtain ⟨c, hc, hv, _⟩ := NewPodSpec_cloudwatch_sts sampleConstants
      (sampleFactory LogCollectionType.vector) none sampleForwarderSpec "1234" "" sampleOutput
      sampleCloudwatch sampleRoleSecret sampleArn
      (by decide) (by decide) (by decide) (by decide) (Or.inr ⟨by decide, by decide⟩)
    exact ⟨c, hc, hv rfl⟩
  · obtain ⟨c, hc, _, hf⟩ := NewPodSpec_cloudwatch_sts sampleConstants
      (sampleFactory LogCollectionType.fluentd) none sampleForwarderSpec "1234" "" sampleOutput
      sampleCloudwatch sampleRoleSecret sampleArn
      (by decide) (by decide) (by decide) (by decide) (Or.inr ⟨by decide, by decide⟩)
    exact ⟨c, hc, hf rfl (by decide)⟩

/-- C7: `CollectorResourceRequirements` returns exactly the declared requirements when
`CollectorSpec.Resources` is not nil, for both collector types; when it is nil the result is
the fluentd default object (memory limit and request `DefaultMemory`, cpu request
`DefaultCpuRequest`) for fluentd and the empty object for vector. -/
theorem CollectorResourceRequirements_replaces (K : FactoryConstants) (f : Factory) :
    (∀ declared, f.CollectorSpec.Resources = some declared →
      f.CollectorResourceRequirements K = declared) ∧
    (f.CollectorSpec.Resources = none → f.CollectorType = LogCollectionType.fluentd →
      f.CollectorResourceRequirements K =
        { Limits := [("memory", K.DefaultMemory)],
          Requests := [("memory", K.DefaultMemory), ("cpu", K.DefaultCpuRequest)] }) ∧
    (f.CollectorSpec.Resources = none → f.CollectorType = LogCollectionType.vector →
      f.CollectorResourceRequirements K = { Limits := [], Requests := [] }) := by
  refine ⟨?_, ?_, ?_⟩
  · intro declared h
    simp [Factory.CollectorResourceRequirements, h]
  · intro h ht
    simp [Factory.CollectorResourceRequirements, h, ht, defaultResources]
  · intro h ht
    simp [Factory.CollectorResourceRequirements, h, ht, defaultResources]

theorem CollectorResourceRequirements_replaces_witness :
    (sampleDeclaredFactory LogCollectionType.fluentd).CollectorSpec.Resources =
      some sampleDeclared ∧
    (sampleDeclaredFactory LogCollectionType.fluentd).CollectorResourceRequirements
      sampleConstants = sampleDeclared ∧
    (sampleFactory LogCollectionType.fluentd).CollectorSpec.Resources = none ∧
    (sampleFactory LogCollectionType.fluentd).CollectorResourceRequirements sampleConstants =
      { Limits := [("memory", "736Mi")], Requests := [("memory", "736Mi"), ("cpu", "100m")] } ∧
    (sampleFactory LogCollectionType.vector).CollectorResourceRequirements sampleConstants =
      { Limits := [], Requests := [] } :=
  ⟨rfl,
   (CollectorResourceRequirements_replaces sampleConstants
     (sampleDeclaredFactory LogCollectionType.fluentd)).1 sampleDeclared rfl,
   rfl,
   (CollectorResourceRequirements_replaces sampleConstants
     (sampleFactory LogCollectionType.fluentd)).2.1 rfl rfl,
   (CollectorResourceRequirements_replaces sampleConstants
     (sampleFactory LogCollectionType.vector)).2.2 rfl rfl⟩

/-- C8: the toleration list of the pod spec built by `NewPodSpec` is the default list followed
by the declared tolerations in their order, without de-duplication; its length is the sum of
the two lengths, and with none declared it is the default list. -/
theorem NewPodSpec_tolerations (K : FactoryConstants) (f : Factory)
    (trustedCABundle : Option ConfigMap) (spec : ClusterLogForwarderSpec)
    (clusterID schemaVersion : String) :
    (f.NewPodSpec K trustedCABundle spec clusterID schemaVersion).Tolerations =
      K.defaultTolerations ++ f.CollectorSpec.Tolerations ∧
    (f.NewPodSpec K trustedCABundle spec clusterID schemaVersion).Tolerations.length =
      K.defaultTolerations.length + f.CollectorSpec.Tolerations.length ∧
    (f.CollectorSpec.Tolerations = [] →
      (f.NewPodSpec K trustedCABundle spec clusterID schemaVersion).Tolerations = K.defaultTolerations) := by
  refine ⟨rfl, ?_, ?_⟩
  · simp [Factory.NewPodSpec, Factory.Tolerations]
  · intro h
    simp [Factory.NewPodSpec, Factory.Tolerations, h]

theorem NewPodSpec_tolerations_witness :
    (sampleFactory LogCollectionType.fluentd).CollectorSpec.Tolerations = [] ∧
    ((sampleFactory LogCollectionType.fluentd).NewPodSpec sampleConstants none
      sampleForwarderSpec "1234" "").Tolerations = sampleConstants.defaultTolerations ∧
    ((sampleDeclaredFactory LogCollectionType.fluentd).NewPodSpec sampleConstants none
      sampleForwarderSpec "1234" "").Tolerations =
      sampleConstants.defaultTolerations ++ [sampleToleration] :=
  ⟨rfl,
   (NewPodSpec_tolerations sampleConstants (sampleFactory LogCollectionType.fluentd) none
     sampleForwarderSpec "1234" "").2.2 rfl,
   (NewPodSpec_tolerations sampleConstants (sampleDeclaredFactory LogCollectionType.fluentd) none
     sampleForwarderSpec "1234" "").1⟩

/-! ## Lemmas of the controller -/

/-- An optimistic-lock conflict of the status write makes `updateStatus` return the requeue after
one second and no error. -/
theorem updateStatus_conflict (R : Runtime) (inst : ClusterLogForwarder) (err : GoError)
    (hw : R.StatusUpdate inst = some err)
    (hlock : Contains err.Message R.OptimisticLockErrorMsg = true) :
    (updateStatus R inst).1 = (⟨false, Second * 1⟩, none) := by
  simp [updateStatus, hw, hlock]

/-- The only effect of `updateStatus` is the status write of its argument. -/
theorem updateStatus_effects (R : Runtime) (inst : ClusterLogForwarder) :
    (updateStatus R inst).2 = [Effect.statusUpdate inst] := by
  unfold updateStatus
  cases h : R.StatusUpdate inst with
  | none => rfl
  | some err => simp only []; split <;> rfl

/-- On the path through the build step an optimistic-lock conflict of the status write leaves
the empty result and the error of the build step: the requeue that `updateStatus` returns is
dropped by line 103, which returns it only together with a non-nil error. -/
theorem reconcileBuild_conflict (R : Runtime) (inst : ClusterLogForwarder)
    (cl : Option ClusterLogging) (err : GoError)
    (hw : R.StatusUpdate (markConditions R
      (R.ReconcileForClusterLogForwarder inst cl (R.GenerateResourceNames inst)).1
      (R.ReconcileForClusterLogForwarder inst cl (R.GenerateResourceNames inst)).2).1 = some err)
    (hlock : Contains err.Message R.OptimisticLockErrorMsg = true) :
    (reconcileBuild R inst cl).1 =
      (Result.empty, (R.ReconcileForClusterLogForwarder inst cl (R.GenerateResourceNames inst)).2)
    := by
  have h := updateStatus_conflict R _ err hw hlock
  simp only [reconcileBuild, h]

/-- C10: when the fetch of the ClusterLogForwarder returns a validation error, `Reconcile` sets
the invalid condition (the ready condition with status `False` and reason `ReasonInvalid`)
with the message `validation failed: <error>` on the status of the instance, which is the
status the loader returned when it returned one; it records the warning event with that
message, writes that status, returns exactly what `updateStatus` returns for it, and does not
invoke the build step: the effects of the pass are exactly the opening event, the two
telemetry calls, the warning event, the status write and the deferred metric. -/
theorem Reconcile_validation_error (R : Runtime) (request : Request)
    (fetched : ClusterLogForwarder) (err : GoError) (status : Option ClusterLogForwarderStatus)
    (hcl : ∀ e, (fetchOrStubClusterLogging R request).2 = some e → e.NotFound = true)
    (hfetch : R.FetchClusterLogForwarder request.Namespace request.Name
      (fetchOrStubClusterLogging R request).1 = (fetched, some err, status))
    (hval : err.Validation = true) :
    ∃ written : ClusterLogForwarder,
      written = { fetched with Status := ⟨(R.SetCondition
        (match status with
          | some s => s.Conditions
          | none => fetched.Status.Conditions)
        ⟨R.ConditionReady, "False", R.ReasonInvalid,
          "validation failed: " ++ err.Message⟩).1⟩ } ∧
      (Reconcile R request).2 =
        [Effect.event request.Namespace request.Name "Normal" R.EventReasonReconcilingLoggingCR
           "Reconciling logging resource",
         Effect.setCLFMetrics 0,
         Effect.event fetched.Namespace fetched.Name "Warning" R.ReasonInvalid
           ("validation failed: " ++ err.Message),
         Effect.setHealthStatus R.UnHealthyStatus,
         Effect.statusUpdate written,
         Effect.setCLFMetrics 1] ∧
      (Reconcile R request).1 = (updateStatus R written).1 ∧
      invokesBuild (Reconcile R request).2 = false := by
  have hbody : (Reconcile R request) =
      ((reconcileInstance R request (fetchOrStubClusterLogging R request).1).1,
       [Effect.event request.Namespace request.Name "Normal" R.EventReasonReconcilingLoggingCR
         "Reconciling logging resource", Effect.setCLFMetrics 0]
       ++ (reconcileInstance R request (fetchOrStubClusterLogging R request).1).2
       ++ [Effect.setCLFMetrics 1]) := by
    unfold Reconcile
    cases he : (fetchOrStubClusterLogging R request).2 with
    | none => simp [he]
    | some e => simp [he, hcl e he]
  refine ⟨_, rfl, ?_, ?_, ?_⟩
  · rw [hbody]
    cases status <;>
      simp [reconcileInstance, fetchForwarder, hfetch, hval, updateStatus_effects, markInvalid,
        CondInvalid, NewCondition]
  · rw [hbody]
    cases status <;>
      simp [reconcileInstance, fetchForwarder, hfetch, hval, markInvalid, CondInvalid,
        NewCondition]
  · rw [hbody]
    cases status <;>
      simp [reconcileInstance, fetchForwarder, hfetch, hval, updateStatus_effects, invokesBuild]

theorem Reconcile_validation_error_witness :
    (fetchOrStubClusterLogging sampleInvalidRuntime sampleRequest).2 = none ∧
    sampleInvalidRuntime.FetchClusterLogForwarder sampleRequest.Namespace sampleRequest.Name
      (fetchOrStubClusterLogging sampleInvalidRuntime sampleRequest).1 =
      (sampleForwarder, some sampleValidationError,
       some ⟨[⟨"CollectorDeadEnd", "True", "Invalid", "earlier failure"⟩]⟩) ∧
    sampleValidationError.Validation = true ∧
    (Reconcile sampleInvalidRuntime sampleRequest).2 =
      [Effect.event "openshift-logging" "instance" "Normal" "ReconcilingLoggingCR"
         "Reconciling logging resource",
       Effect.setCLFMetrics 0,
       Effect.event "openshift-logging" "instance" "Warning" "Invalid"
         "validation failed: output \"cw\" is not declared",
       Effect.setHealthStatus "0",
       Effect.statusUpdate { sampleForwarder with Status :=
         ⟨[⟨"CollectorDeadEnd", "True", "Invalid", "earlier failure"⟩,
           ⟨"Ready", "False", "Invalid",
             "validation failed: output \"cw\" is not declared"⟩]⟩ },
       Effect.setCLFMetrics 1] ∧
    (Reconcile sampleInvalidRuntime sampleRequest).1 = (Result.empty, none) ∧
    ∃ written : ClusterLogForwarder,
      written = { sampleForwarder with Status := ⟨(sampleInvalidRuntime.SetCondition
        (match (some ⟨[⟨"CollectorDeadEnd", "True", "Invalid", "earlier failure"⟩]⟩ :
            Option ClusterLogForwarderStatus) with
          | some s => s.Conditions
          | none => sampleForwarder.Status.Conditions)
        ⟨sampleInvalidRuntime.ConditionReady, "False", sampleInvalidRuntime.ReasonInvalid,
          "validation failed: " ++ sampleValidationError.Message⟩).1⟩ } ∧
      (Reconcile sampleInvalidRuntime sampleRequest).2 =
        [Effect.event sampleRequest.Namespace sampleRequest.Name "Normal"
           sampleInvalidRuntime.EventReasonReconcilingLoggingCR "Reconciling logging resource",
         Effect.setCLFMetrics 0,
         Effect.event sampleForwarder.Namespace sampleForwarder.Name "Warning"
           sampleInvalidRuntime.ReasonInvalid
           ("validation failed: " ++ sampleValidationError.Message),
         Effect.setHealthStatus sampleInvalidRuntime.UnHealthyStatus,
         Effect.statusUpdate written,
         Effect.setCLFMetrics 1] ∧
      (Reconcile sampleInvalidRuntime sampleRequest).1 =
        (updateStatus sampleInvalidRuntime written).1 ∧
      invokesBuild (Reconcile sampleInvalidRuntime sampleRequest).2 = false :=
  ⟨by decide, by decide, by decide, by decide, by decide,
   Reconcile_validation_error sampleInvalidRuntime sampleRequest sampleForwarder
     sampleValidationError (some ⟨[⟨"CollectorDeadEnd", "True", "Invalid", "earlier failure"⟩]⟩)
     (fun e h => absurd h (by
       have h0 : (fetchOrStubClusterLogging sampleInvalidRuntime sampleRequest).2 = none := by
         decide
       rw [h0]; exact fun h1 => Option.noConfusion h1))
     (by decide) (by decide)⟩

set_option maxRecDepth 100000

/-- C9: evaluation of `Reconcile` at a pass whose status write loses an optimistic-lock race.
After a successful fetch and a successful build step the pass returns the empty result and no
error: the requeue after one second that `updateStatus` returns is not passed on. On the
validation-failure path of the same runtime the requeue after one second is returned. -/
theorem Reconcile_conflict_after_build_drops_requeue :
    Contains sampleConflict.Message
      (sampleRuntime none none (some sampleConflict)).OptimisticLockErrorMsg = true ∧
    (Reconcile (sampleRuntime none none (some sampleConflict)) sampleRequest).1 =
      (Result.empty, none) ∧
    (Reconcile (sampleRuntime none none (some sampleConflict)) sampleRequest).1.1.RequeueAfter
      ≠ Second * 1 ∧
    invokesBuild
      (Reconcile (sampleRuntime none none (some sampleConflict)) sampleRequest).2 = true ∧
    (Reconcile (sampleRuntime (some sampleValidationError) none (some sampleConflict))
      sampleRequest).1 = (⟨false, Second * 1⟩, none) := by
  refine ⟨by decide, by decide, by decide, by decide, by decide⟩

/-! ## Orthogonality of policy and spec, and the rendered block -/

/-- The rendered block of a `TLSConf` with `NeedsEnabled = true`: the section header, the
`enabled` pair, and one group of lines for every value that is set. -/
theorem render_of_needsEnabled (t : TLSConf) (h : t.NeedsEnabled = true) :
    t.render = "[" ++ t.Component ++ "." ++ t.ID ++ ".tls]\n" ++ t.Enabled.String
      ++ (if t.TlsMinVersion ≠ "" then "\nmin_tls_version = \"" ++ t.TlsMinVersion ++ "\"" else "")
      ++ (if t.CipherSuites ≠ "" then "\nciphersuites = \"" ++ t.CipherSuites ++ "\"" else "")
      ++ (if t.InsecureSkipVerify = true then
            "\nverify_certificate = false\nverify_hostname = false" else "")
      ++ (if t.KeyPath ≠ "" ∧ t.CertPath ≠ "" then
            "\nkey_file = " ++ t.KeyPath ++ "\ncrt_file = " ++ t.CertPath else "")
      ++ (if t.CAFilePath ≠ "" then "\nca_file = " ++ t.CAFilePath else "")
      ++ (if t.PassPhrase ≠ "" then "\nkey_pass = \"" ++ t.PassPhrase ++ "\"" else "")
      ++ "\n" := by
  simp only [TLSConf.render, TLSConf.Template, h, Bool.not_true, Bool.false_eq_true, if_false,
    execute, Node.execute, Item.execute, executeItems, Cond.eval, StrField.get]
  by_cases h1 : t.TlsMinVersion = "" <;> by_cases h2 : t.CipherSuites = "" <;>
    by_cases h3 : t.InsecureSkipVerify = true <;> by_cases h4 : t.KeyPath = "" <;>
    by_cases h5 : t.CertPath = "" <;> by_cases h6 : t.CAFilePath = "" <;>
    by_cases h7 : t.PassPhrase = "" <;>
    simp [h1, h2, h3, h4, h5, h6, h7, String.append_assoc, -String.reduceAppend]

/-- A string that is put together around `sub` contains `sub`. -/
theorem Contains_of_append (a sub b : String) : Contains (a ++ sub ++ b) sub = true := by
  simp only [Contains, String.data_append, decide_eq_true_eq]
  exact List.infix_append _ _ _

/-- With a URL option that does not send `New` to `framework.Nil` and option values that are
strings where `New` asserts so, `New` returns the `TLSConf` built from the spec and the
policy. -/
theorem New_returns_conf (I : Imports) (id : String) (spec : Option OutputTLSSpec)
    (secrets : Secrets) (op : Options) (options : List FrameworkOption) (minV ciph : String)
    (hp : plaintextURL I options = some false)
    (hcomp : ∀ v, I.HasOption Component options = some v → ∃ s, v = GoAny.str s)
    (hmin : stringEntry (op.lookup I.MinTLSVersion) = some minV)
    (hciph : stringEntry (op.lookup I.Ciphers) = some ciph) :
    ∃ conf0, initialConf I id options = some conf0 ∧
      New I id spec secrets op options = some (Element.TLSConf (markNeedsEnabled
        { applySpec I conf0 spec secrets options with
          TlsMinVersion := minV, CipherSuites := ciph } spec)) := by
  obtain ⟨conf0, h0⟩ : ∃ conf0, initialConf I id options = some conf0 := by
    unfold initialConf
    cases hc : I.HasOption Component options with
    | none => exact ⟨_, rfl⟩
    | some v =>
      obtain ⟨s, rfl⟩ := hcomp v hc
      exact ⟨_, rfl⟩
  have hf := initialConf_fields I id options conf0 h0
  have ha := applySpec_frame I conf0 spec secrets options
  have h1 := setTLSProfileFromOptions_of_strings I (applySpec I conf0 spec secrets options) op
    minV ciph hmin hciph
  have hminV : (if (op.lookup I.MinTLSVersion).isSome then minV else "") = minV := by
    cases hl : op.lookup I.MinTLSVersion with
    | none => simp [hl, stringEntry] at hmin; simp [hmin]
    | some v => simp
  have hciphV : (if (op.lookup I.Ciphers).isSome then ciph else "") = ciph := by
    cases hl : op.lookup I.Ciphers with
    | none => simp [hl, stringEntry] at hciph; simp [hciph]
    | some v => simp
  simp only [ha.2.1, ha.2.2.1, hf.2.2.2.2.1, hf.2.2.2.2.2.1, hminV, hciphV] at h1
  refine ⟨conf0, h0, ?_⟩
  simp only [New, hp, Option.some_bind, Bool.false_eq_true, if_false, h0, h1, Option.map_some']

/-- The fields of a `TLSConf` that `New` returns: the materials come from the spec applied to
the initial `TLSConf`, the two policy fields are the entries of the options map. -/
theorem New_conf_fields (I : Imports) (id : String) (spec : Option OutputTLSSpec)
    (secrets : Secrets) (op : Options) (options : List FrameworkOption) (c : TLSConf)
    (h : New I id spec secrets op options = some (Element.TLSConf c)) :
    ∃ conf0, initialConf I id options = some conf0 ∧
      c.CAFilePath = (applySpec I conf0 spec secrets options).CAFilePath ∧
      c.CertPath = (applySpec I conf0 spec secrets options).CertPath ∧
      c.KeyPath = (applySpec I conf0 spec secrets options).KeyPath ∧
      c.PassPhrase = (applySpec I conf0 spec secrets options).PassPhrase ∧
      c.InsecureSkipVerify = (applySpec I conf0 spec secrets options).InsecureSkipVerify ∧
      c.Enabled = (applySpec I conf0 spec secrets options).Enabled ∧
      c.Component = (applySpec I conf0 spec secrets options).Component ∧
      c.ID = (applySpec I conf0 spec secrets options).ID ∧
      stringEntry (op.lookup I.MinTLSVersion) = some c.TlsMinVersion ∧
      stringEntry (op.lookup I.Ciphers) = some c.CipherSuites := by
  obtain ⟨conf0, conf1, _, h0, h1, rfl⟩ := New_conf_inv I id spec secrets op options c h
  have hf := initialConf_fields I id options conf0 h0
  have ha := applySpec_frame I conf0 spec secrets options
  obtain ⟨v, cs, hv, hc, h2⟩ := setTLSProfileFromOptions_some I _ conf1 op h1
  have hm := markNeedsEnabled_frame conf1 spec
  have hvE : (if (op.lookup I.MinTLSVersion).isSome then v else "") = v := by
    cases hl : op.lookup I.MinTLSVersion with
    | none => simp [hl, stringEntry] at hv; simp [hv]
    | some w => simp
  have hcE : (if (op.lookup I.Ciphers).isSome then cs else "") = cs := by
    cases hl : op.lookup I.Ciphers with
    | none => simp [hl, stringEntry] at hc; simp [hc]
    | some w => simp
  simp only [ha.2.1, ha.2.2.1, hf.2.2.2.2.1, hf.2.2.2.2.2.1, hvE, hcE] at h2
  refine ⟨conf0, h0, ?_⟩
  obtain ⟨m1, m2, m3, m4, m5, m6, m7, m8, m9, m10⟩ := hm
  rw [m7, m8, m9, m10, m6, m5, m3, m4, m2, m1, h2]
  exact ⟨rfl, rfl, rfl, rfl, rfl, rfl, rfl, rfl, hv, hc⟩

/-- C12: the policy and the spec are orthogonal in `New`. For two global options maps and the
same id, spec, secrets and options, two returned `TLSConf` values agree on `CAFilePath`,
`CertPath`, `KeyPath`, `PassPhrase`, `InsecureSkipVerify`, `Enabled`, `Component` and `ID`; and
the `TlsMinVersion` and `CipherSuites` of a returned `TLSConf` are the minimum-version and
cipher entries of the options map (empty when the entry is absent), whatever the spec is. -/
theorem New_policy_orthogonal (I : Imports) (id : String) (spec : Option OutputTLSSpec)
    (secrets : Secrets) (op1 op2 : Options) (options : List FrameworkOption) :
    (∀ c1 c2, New I id spec secrets op1 options = some (Element.TLSConf c1) →
      New I id spec secrets op2 options = some (Element.TLSConf c2) →
      c1.CAFilePath = c2.CAFilePath ∧ c1.CertPath = c2.CertPath ∧ c1.KeyPath = c2.KeyPath ∧
      c1.PassPhrase = c2.PassPhrase ∧ c1.InsecureSkipVerify = c2.InsecureSkipVerify ∧
      c1.Enabled = c2.Enabled ∧ c1.Component = c2.Component ∧ c1.ID = c2.ID) ∧
    (∀ c1, New I id spec secrets op1 options = some (Element.TLSConf c1) →
      stringEntry (op1.lookup I.MinTLSVersion) = some c1.TlsMinVersion ∧
      stringEntry (op1.lookup I.Ciphers) = some c1.CipherSuites) := by
  refine ⟨?_, ?_⟩
  · intro c1 c2 h1 h2
    obtain ⟨a, ha, a1, a2, a3, a4, a5, a6, a7, a8, _, _⟩ :=
      New_conf_fields I id spec secrets op1 options c1 h1
    obtain ⟨b, hb, b1, b2, b3, b4, b5, b6, b7, b8, _, _⟩ :=
      New_conf_fields I id spec secrets op2 options c2 h2
    have hab : a = b := Option.some.inj (ha.symm.trans hb)
    subst hab
    exact ⟨a1.trans b1.symm, a2.trans b2.symm, a3.trans b3.symm, a4.trans b4.symm,
      a5.trans b5.symm, a6.trans b6.symm, a7.trans b7.symm, a8.trans b8.symm⟩
  · intro c1 h1
    obtain ⟨a, _, _, _, _, _, _, _, _, _, hv, hc⟩ :=
      New_conf_fields I id spec secrets op1 options c1 h1
    exact ⟨hv, hc⟩

theorem New_policy_orthogonal_witness :
    New sampleImports "es" (some sampleTLSSpec) [] samplePolicy sampleSecureURL =
      some (Element.TLSConf (sampleSpecConf "VersionTLS12" "")) ∧
    New sampleImports "es" (some sampleTLSSpec) [] sampleCipherPolicy sampleSecureURL =
      some (Element.TLSConf (sampleSpecConf "" "TLS_AES_128_GCM_SHA256")) ∧
    ((sampleSpecConf "VersionTLS12" "").CAFilePath =
        (sampleSpecConf "" "TLS_AES_128_GCM_SHA256").CAFilePath ∧
      (sampleSpecConf "VersionTLS12" "").CertPath =
        (sampleSpecConf "" "TLS_AES_128_GCM_SHA256").CertPath ∧
      (sampleSpecConf "VersionTLS12" "").KeyPath =
        (sampleSpecConf "" "TLS_AES_128_GCM_SHA256").KeyPath ∧
      (sampleSpecConf "VersionTLS12" "").PassPhrase =
        (sampleSpecConf "" "TLS_AES_128_GCM_SHA256").PassPhrase ∧
      (sampleSpecConf "VersionTLS12" "").InsecureSkipVerify =
        (sampleSpecConf "" "TLS_AES_128_GCM_SHA256").InsecureSkipVerify ∧
      (sampleSpecConf "VersionTLS12" "").Enabled =
        (sampleSpecConf "" "TLS_AES_128_GCM_SHA256").Enabled ∧
      (sampleSpecConf "VersionTLS12" "").Component =
        (sampleSpecConf "" "TLS_AES_128_GCM_SHA256").Component ∧
      (sampleSpecConf "VersionTLS12" "").ID = (sampleSpecConf "" "TLS_AES_128_GCM_SHA256").ID) ∧
    (stringEntry (samplePolicy.lookup sampleImports.MinTLSVersion) =
        some (sampleSpecConf "VersionTLS12" "").TlsMinVersion ∧
      stringEntry (samplePolicy.lookup sampleImports.Ciphers) =
        some (sampleSpecConf "VersionTLS12" "").CipherSuites) :=
  ⟨by decide, by decide,
   (New_policy_orthogonal sampleImports "es" (some sampleTLSSpec) [] samplePolicy
     sampleCipherPolicy sampleSecureURL).1 (sampleSpecConf "VersionTLS12" "")
     (sampleSpecConf "" "TLS_AES_128_GCM_SHA256") (by decide) (by decide),
   (New_policy_orthogonal sampleImports "es" (some sampleTLSSpec) [] samplePolicy
     sampleCipherPolicy sampleSecureURL).2 (sampleSpecConf "VersionTLS12" "") (by decide)⟩

/-- C13: for a TLS spec with `InsecureSkipVerify = true` and a CA reference that resolves to a
non-empty path, on a secure destination (the option values that `New` asserts to be strings
being strings), `New` returns a `TLSConf` that copies `InsecureSkipVerify` and holds the CA
path, and its rendered block has both the lines `verify_certificate = false` /
`verify_hostname = false` and the line `ca_file = <CA path>`. -/
theorem New_skip_verify_keeps_ca (I : Imports) (id : String) (s : OutputTLSSpec)
    (secrets : Secrets) (op : Options) (options : List FrameworkOption) (u minV ciph : String)
    (hurl : I.HasOption I.URL options = some (GoAny.str u)) (hsec : I.IsSecure u = true)
    (hcomp : ∀ v, I.HasOption Component options = some v → ∃ s, v = GoAny.str s)
    (hmin : stringEntry (op.lookup I.MinTLSVersion) = some minV)
    (hciph : stringEntry (op.lookup I.Ciphers) = some ciph)
    (hskip : s.InsecureSkipVerify = true) (hca : ConfigMapOrSecretPath I s.CA ≠ "") :
    ∃ c, New I id (some s) secrets op options = some (Element.TLSConf c) ∧
      c.InsecureSkipVerify = s.InsecureSkipVerify ∧
      c.CAFilePath = ConfigMapOrSecretPath I s.CA ∧
      c.render = "[" ++ c.Component ++ "." ++ c.ID ++ ".tls]\n" ++ c.Enabled.String
        ++ (if minV ≠ "" then "\nmin_tls_version = \"" ++ minV ++ "\"" else "")
        ++ (if ciph ≠ "" then "\nciphersuites = \"" ++ ciph ++ "\"" else "")
        ++ "\nverify_certificate = false\nverify_hostname = false"
        ++ (if c.KeyPath ≠ "" ∧ c.CertPath ≠ "" then
              "\nkey_file = " ++ c.KeyPath ++ "\ncrt_file = " ++ c.CertPath else "")
        ++ "\nca_file = " ++ ConfigMapOrSecretPath I s.CA
        ++ (if c.PassPhrase ≠ "" then "\nkey_pass = \"" ++ c.PassPhrase ++ "\"" else "")
        ++ "\n" ∧
      Contains c.render "\nverify_certificate = false\nverify_hostname = false" = true ∧
      Contains c.render ("\nca_file = " ++ ConfigMapOrSecretPath I s.CA) = true := by
  have hp : plaintextURL I options = some false := by
    simp [plaintextURL, hurl, GoAny.assertString, hsec]
  obtain ⟨conf0, h0, hnew⟩ :=
    New_returns_conf I id (some s) secrets op options minV ciph hp hcomp hmin hciph
  obtain ⟨m1, m2, m3, m4, m5, m6, m7, m8, m9, m10⟩ := markNeedsEnabled_frame
    { applySpec I conf0 (some s) secrets options with
      TlsMinVersion := minV, CipherSuites := ciph } (some s)
  have hne : (markNeedsEnabled { applySpec I conf0 (some s) secrets options with
      TlsMinVersion := minV, CipherSuites := ciph } (some s)).NeedsEnabled = true := by
    simp [markNeedsEnabled]
  have hskipa : (applySpec I conf0 (some s) secrets options).InsecureSkipVerify
      = s.InsecureSkipVerify := by simp [applySpec]
  have hcaa : (applySpec I conf0 (some s) secrets options).CAFilePath
      = ConfigMapOrSecretPath I s.CA := by simp [applySpec]
  generalize markNeedsEnabled { applySpec I conf0 (some s) secrets options with
      TlsMinVersion := minV, CipherSuites := ciph } (some s) = c at hnew m1 m2 m6 m7 hne
  have hskipc : c.InsecureSkipVerify = s.InsecureSkipVerify := m6.trans hskipa
  have hcac : c.CAFilePath = ConfigMapOrSecretPath I s.CA := m7.trans hcaa
  have hmv : c.TlsMinVersion = minV := m2
  have hcs : c.CipherSuites = ciph := m1
  have hrender := render_of_needsEnabled c hne
  rw [hskipc, hskip, hcac, hmv, hcs] at hrender
  simp only [if_true, if_pos hca] at hrender
  refine ⟨c, hnew, hskipc, hcac, ?_, ?_, ?_⟩
  · simp only [hrender, String.append_assoc]
  · have hsplit : c.render =
        ("[" ++ c.Component ++ "." ++ c.ID ++ ".tls]\n" ++ c.Enabled.String
          ++ (if minV ≠ "" then "\nmin_tls_version = \"" ++ minV ++ "\"" else "")
          ++ (if ciph ≠ "" then "\nciphersuites = \"" ++ ciph ++ "\"" else ""))
        ++ "\nverify_certificate = false\nverify_hostname = false"
        ++ ((if c.KeyPath ≠ "" ∧ c.CertPath ≠ "" then
              "\nkey_file = " ++ c.KeyPath ++ "\ncrt_file = " ++ c.CertPath else "")
          ++ "\nca_file = " ++ ConfigMapOrSecretPath I s.CA
          ++ (if c.PassPhrase ≠ "" then "\nkey_pass = \"" ++ c.PassPhrase ++ "\"" else "")
          ++ "\n") := by
      simp only [hrender, String.append_assoc]
    rw [hsplit]
    exact Contains_of_append _ _ _
  · have hsplit : c.render =
        ("[" ++ c.Component ++ "." ++ c.ID ++ ".tls]\n" ++ c.Enabled.String
          ++ (if minV ≠ "" then "\nmin_tls_version = \"" ++ minV ++ "\"" else "")
          ++ (if ciph ≠ "" then "\nciphersuites = \"" ++ ciph ++ "\"" else "")
          ++ "\nverify_certificate = false\nverify_hostname = false"
          ++ (if c.KeyPath ≠ "" ∧ c.CertPath ≠ "" then
              "\nkey_file = " ++ c.KeyPath ++ "\ncrt_file = " ++ c.CertPath else ""))
        ++ ("\nca_file = " ++ ConfigMapOrSecretPath I s.CA)
        ++ ((if c.PassPhrase ≠ "" then "\nkey_pass = \"" ++ c.PassPhrase ++ "\"" else "")
          ++ "\n") := by
      simp only [hrender, String.append_assoc]
    rw [hsplit]
    exact Contains_of_append _ _ _

theorem New_skip_verify_keeps_ca_witness :
    sampleImports.HasOption sampleImports.URL sampleSecureURL =
      some (GoAny.str "https://es:9200") ∧
    sampleImports.IsSecure "https://es:9200" = true ∧
    sampleImports.HasOption Component sampleSecureURL = none ∧
    stringEntry (samplePolicy.lookup sampleImports.MinTLSVersion) = some "VersionTLS12" ∧
    stringEntry (samplePolicy.lookup sampleImports.Ciphers) = some "" ∧
    sampleTLSSpec.InsecureSkipVerify = true ∧
    ConfigMapOrSecretPath sampleImports sampleTLSSpec.CA ≠ "" ∧
    ∃ c, New sampleImports "es" (some sampleTLSSpec) [] samplePolicy sampleSecureURL =
        some (Element.TLSConf c) ∧
      c.InsecureSkipVerify = sampleTLSSpec.InsecureSkipVerify ∧
      c.CAFilePath = ConfigMapOrSecretPath sampleImports sampleTLSSpec.CA ∧
      c.render = "[" ++ c.Component ++ "." ++ c.ID ++ ".tls]\n" ++ c.Enabled.String
        ++ (if "VersionTLS12" ≠ "" then "\nmin_tls_version = \"" ++ "VersionTLS12" ++ "\"" else "")
        ++ (if "" ≠ "" then "\nciphersuites = \"" ++ "" ++ "\"" else "")
        ++ "\nverify_certificate = false\nverify_hostname = false"
        ++ (if c.KeyPath ≠ "" ∧ c.CertPath ≠ "" then
              "\nkey_file = " ++ c.KeyPath ++ "\ncrt_file = " ++ c.CertPath else "")
        ++ "\nca_file = " ++ ConfigMapOrSecretPath sampleImports sampleTLSSpec.CA
        ++ (if c.PassPhrase ≠ "" then "\nkey_pass = \"" ++ c.PassPhrase ++ "\"" else "")
        ++ "\n" ∧
      Contains c.render "\nverify_certificate = false\nverify_hostname = false" = true ∧
      Contains c.render ("\nca_file = " ++ ConfigMapOrSecretPath sampleImports sampleTLSSpec.CA)
        = true :=
  ⟨by decide, by decide, by decide, by decide, by decide, by decide, by decide,
   New_skip_verify_keeps_ca sampleImports "es" sampleTLSSpec [] samplePolicy sampleSecureURL
     "https://es:9200" "VersionTLS12" "" (by decide) (by decide)
     (fun v h => absurd h (by
       have h0 : sampleImports.HasOption Component sampleSecureURL = none := by decide
       rw [h0]; exact fun h1 => Option.noConfusion h1))
     (by decide) (by decide) (by decide) (by decide)⟩

/-! ## The conditions of a successful pass and the status write -/

/-- When the fetch of the ClusterLogging does not end the pass, `Reconcile` is the rest of the
pass between the opening effects and the deferred metric. -/
theorem Reconcile_of_fetch (R : Runtime) (request : Request)
    (hcl : ∀ e, (fetchOrStubClusterLogging R request).2 = some e → e.NotFound = true) :
    Reconcile R request =
      ((reconcileInstance R request (fetchOrStubClusterLogging R request).1).1,
       [Effect.event request.Namespace request.Name "Normal" R.EventReasonReconcilingLoggingCR
         "Reconciling logging resource", Effect.setCLFMetrics 0]
       ++ (reconcileInstance R request (fetchOrStubClusterLogging R request).1).2
       ++ [Effect.setCLFMetrics 1]) := by
  unfold Reconcile
  cases he : (fetchOrStubClusterLogging R request).2 with
  | none => simp [he]
  | some e => simp [he, hcl e he]

/-- The effects of the path through the build step: the build call, the effects of the
conditions, the status write of the marked instance. -/
theorem reconcileBuild_effects (R : Runtime) (inst : ClusterLogForwarder)
    (cl : Option ClusterLogging) :
    (reconcileBuild R inst cl).2 =
      [Effect.build inst]
      ++ (markConditions R
          (R.ReconcileForClusterLogForwarder inst cl (R.GenerateResourceNames inst)).1
          (R.ReconcileForClusterLogForwarder inst cl (R.GenerateResourceNames inst)).2).2
      ++ [Effect.statusUpdate (markConditions R
          (R.ReconcileForClusterLogForwarder inst cl (R.GenerateResourceNames inst)).1
          (R.ReconcileForClusterLogForwarder inst cl (R.GenerateResourceNames inst)).2).1] := by
  unfold reconcileBuild
  simp only [updateStatus_effects]
  split <;> rfl

/-- C11 (amended): on a reconcile pass whose fetches and build step succeed, `Reconcile` acts on
the conditions under the guard of line 92. When the ready condition is true on the status
that the build step left, it sets the dead-end condition to `False`, sets the ready condition,
writes that status, and emits the `ClusterLogForwarder is valid` event exactly when
`SetCondition(CondReady)` returns false. When the ready condition is not true, it writes the
status as the build step left it and emits no such event. -/
theorem Reconcile_success_conditions (R : Runtime) (request : Request)
    (inst built : ClusterLogForwarder)
    (hcl : ∀ e, (fetchOrStubClusterLogging R request).2 = some e → e.NotFound = true)
    (hfetch : fetchForwarder R request (fetchOrStubClusterLogging R request).1 = (inst, none))
    (hbuild : R.ReconcileForClusterLogForwarder inst (fetchOrStubClusterLogging R request).1
      (R.GenerateResourceNames inst) = (built, none)) :
    (R.IsTrueFor built.Status.Conditions R.ConditionReady = true →
      Effect.statusUpdate { built with Status.Conditions :=
        (R.SetCondition (R.SetCondition built.Status.Conditions
          (NewCondition R.CollectorDeadEnd "False" "" "")).1 (CondReady R)).1 }
        ∈ (Reconcile R request).2 ∧
      (emitsValidEvent (Reconcile R request).2 = true ↔
        (R.SetCondition (R.SetCondition built.Status.Conditions
          (NewCondition R.CollectorDeadEnd "False" "" "")).1 (CondReady R)).2 = false)) ∧
    (R.IsTrueFor built.Status.Conditions R.ConditionReady = false →
      Effect.statusUpdate built ∈ (Reconcile R request).2 ∧
      emitsValidEvent (Reconcile R request).2 = false) := by
  have hrec := Reconcile_of_fetch R request hcl
  have hinst : reconcileInstance R request (fetchOrStubClusterLogging R request).1 =
      reconcileBuild R inst (fetchOrStubClusterLogging R request).1 := by
    simp [reconcileInstance, hfetch]
  have heff := reconcileBuild_effects R inst (fetchOrStubClusterLogging R request).1
  rw [hbuild] at heff
  rw [hrec, hinst, heff]
  refine ⟨?_, ?_⟩
  · intro hready
    cases hb : (R.SetCondition (R.SetCondition built.Status.Conditions
        (NewCondition R.CollectorDeadEnd "False" "" "")).1 (CondReady R)).2 <;>
      simp [markConditions, hready, hb, emitsValidEvent]
  · intro hready
    simp [markConditions, hready, emitsValidEvent]

theorem Reconcile_success_conditions_witness :
    (fetchOrStubClusterLogging sampleReadyRuntime sampleRequest).2 = none ∧
    fetchForwarder sampleReadyRuntime sampleRequest
      (fetchOrStubClusterLogging sampleReadyRuntime sampleRequest).1 =
      (sampleReadyForwarder, none) ∧
    sampleReadyRuntime.ReconcileForClusterLogForwarder sampleReadyForwarder
      (fetchOrStubClusterLogging sampleReadyRuntime sampleRequest).1
      (sampleReadyRuntime.GenerateResourceNames sampleReadyForwarder) =
      (sampleReadyForwarder, none) ∧
    ((sampleReadyRuntime.IsTrueFor sampleReadyForwarder.Status.Conditions
        sampleReadyRuntime.ConditionReady = true →
      Effect.statusUpdate { sampleReadyForwarder with Status.Conditions :=
        (sampleReadyRuntime.SetCondition
          (sampleReadyRuntime.SetCondition sampleReadyForwarder.Status.Conditions
            (NewCondition sampleReadyRuntime.CollectorDeadEnd "False" "" "")).1
          (CondReady sampleReadyRuntime)).1 }
        ∈ (Reconcile sampleReadyRuntime sampleRequest).2 ∧
      (emitsValidEvent (Reconcile sampleReadyRuntime sampleRequest).2 = true ↔
        (sampleReadyRuntime.SetCondition
          (sampleReadyRuntime.SetCondition sampleReadyForwarder.Status.Conditions
            (NewCondition sampleReadyRuntime.CollectorDeadEnd "False" "" "")).1
          (CondReady sampleReadyRuntime)).2 = false)) ∧
    (sampleReadyRuntime.IsTrueFor sampleReadyForwarder.Status.Conditions
        sampleReadyRuntime.ConditionReady = false →
      Effect.statusUpdate sampleReadyForwarder ∈ (Reconcile sampleReadyRuntime sampleRequest).2 ∧
      emitsValidEvent (Reconcile sampleReadyRuntime sampleRequest).2 = false)) :=
  ⟨by decide, by decide, by decide,
   Reconcile_success_conditions sampleReadyRuntime sampleRequest sampleReadyForwarder
     sampleReadyForwarder
     (fun e h => absurd h (by
       have h0 : (fetchOrStubClusterLogging sampleReadyRuntime sampleRequest).2 = none := by
         decide
       rw [h0]; exact fun h1 => Option.noConfusion h1))
     (by decide) (by decide)⟩

/-- C11 (counterexample): two passes whose build step succeeds. In the first the status has no
ready condition: the status is written with no condition at all, so the ready condition is
not set. In the second the status starts with the ready condition true and the pass leaves
it unchanged (`SetCondition(CondReady)` returns false, see the comment at lines 94-95): the
`ClusterLogForwarder is valid` event is emitted. -/
theorem Reconcile_success_not_always_ready :
    ((sampleRuntime none none none).ReconcileForClusterLogForwarder sampleForwarder
      (fetchOrStubClusterLogging (sampleRuntime none none none) sampleRequest).1
      ((sampleRuntime none none none).GenerateResourceNames sampleForwarder)).2 = none ∧
    (Reconcile (sampleRuntime none none none) sampleRequest).2 =
      [Effect.event "openshift-logging" "instance" "Normal" "ReconcilingLoggingCR"
         "Reconciling logging resource",
       Effect.setCLFMetrics 0, Effect.build sampleForwarder,
       Effect.statusUpdate sampleForwarder, Effect.setCLFMetrics 1] ∧
    sampleForwarder.Status.Conditions = [] ∧
    (sampleReadyRuntime.ReconcileForClusterLogForwarder sampleReadyForwarder
      (fetchOrStubClusterLogging sampleReadyRuntime sampleRequest).1
      (sampleReadyRuntime.GenerateResourceNames sampleReadyForwarder)).2 = none ∧
    sampleReadyForwarder.Status.Conditions = [⟨"Ready", "True", "", ""⟩] ∧
    (Reconcile sampleReadyRuntime sampleRequest).2 =
      [Effect.event "openshift-logging" "instance" "Normal" "ReconcilingLoggingCR"
         "Reconciling logging resource",
       Effect.setCLFMetrics 0, Effect.build sampleReadyForwarder,
       Effect.setHealthStatus "1",
       Effect.event "openshift-logging" "instance" "Normal" "Ready"
         "ClusterLogForwarder is valid",
       Effect.statusUpdate { sampleReadyForwarder with Status.Conditions :=
         [⟨"Ready", "True", "", ""⟩, ⟨"CollectorDeadEnd", "False", "", ""⟩] },
       Effect.setCLFMetrics 1] ∧
    emitsValidEvent (Reconcile sampleReadyRuntime sampleRequest).2 = true := by
  refine ⟨by decide, by decide, by decide, by decide, by decide, by decide, by decide⟩

/-- C14: `updateStatus` returns the requeue after one second with a nil error exactly when
the status write fails with an error whose message contains `OptimisticLockErrorMsg`; for
every other failure of the write it returns the empty result with that same error; for a
successful write it returns the empty result and a nil error. -/
theorem updateStatus_classifies (R : Runtime) (inst : ClusterLogForwarder) :
    ((updateStatus R inst).1 = (⟨false, Second * 1⟩, none) ↔
      ∃ err, R.StatusUpdate inst = some err ∧
        Contains err.Message R.OptimisticLockErrorMsg = true) ∧
    (∀ err, R.StatusUpdate inst = some err →
      Contains err.Message R.OptimisticLockErrorMsg = false →
      (updateStatus R inst).1 = (Result.empty, some err)) ∧
    (R.StatusUpdate inst = none → (updateStatus R inst).1 = (Result.empty, none)) := by
  refine ⟨?_, ?_, ?_⟩
  · constructor
    · intro h
      unfold updateStatus at h
      cases hw : R.StatusUpdate inst with
      | none =>
        simp [hw, Result.empty, Second] at h
      | some err =>
        by_cases hc : Contains err.Message R.OptimisticLockErrorMsg = true
        · exact ⟨err, rfl, hc⟩
        · simp [hw, hc] at h
    · rintro ⟨err, hw, hc⟩
      simp [updateStatus, hw, hc]
  · intro err hw hc
    simp [updateStatus, hw, hc]
  · intro hw
    simp [updateStatus, hw]

theorem updateStatus_classifies_witness :
    (sampleRuntime none none (some sampleConflict)).StatusUpdate sampleForwarder =
      some sampleConflict ∧
    Contains sampleConflict.Message
      (sampleRuntime none none (some sampleConflict)).OptimisticLockErrorMsg = true ∧
    (updateStatus (sampleRuntime none none (some sampleConflict)) sampleForwarder).1 =
      (⟨false, Second * 1⟩, none) ∧
    (sampleRuntime none none (some sampleWriteError)).StatusUpdate sampleForwarder =
      some sampleWriteError ∧
    Contains sampleWriteError.Message
      (sampleRuntime none none (some sampleWriteError)).OptimisticLockErrorMsg = false ∧
    (updateStatus (sampleRuntime none none (some sampleWriteError)) sampleForwarder).1 =
      (Result.empty, some sampleWriteError) ∧
    (sampleRuntime none none none).StatusUpdate sampleForwarder = none ∧
    (updateStatus (sampleRuntime none none none) sampleForwarder).1 = (Result.empty, none) :=
  ⟨rfl, by decide,
   (updateStatus_classifies (sampleRuntime none none (some sampleConflict))
     sampleForwarder).1.mpr ⟨sampleConflict, rfl, by decide⟩,
   rfl, by decide,
   (updateStatus_classifies (sampleRuntime none none (some sampleWriteError))
     sampleForwarder).2.1 sampleWriteError rfl (by decide),
   rfl,
   (updateStatus_classifies (sampleRuntime none none none) sampleForwarder).2.2 rfl⟩

end CLO
